import Mathlib

/-!
# OffBeat frontend — verification of the mood-analysis data layer

Shallow embedding of the OffBeat frontend's analysis data model and the
pure computations the specification talks about:

* `frontend/src/lib/placeholderData.ts` — the `AnalysisResult` data model,
  `PLACEHOLDER_ANALYSIS`, `AUDIO_FEATURE_META` and `parseAnomalyReason`;
* `frontend/src/lib/api.ts` — `transformAnalysisResponse`;
* `frontend/src/components/ActionDashboard.tsx` — `FeatureBar` and the
  `CompareView` aggregation helpers (`avgAudio`, `clusterPresence`,
  shared/unique cluster sets).

Modelling conventions:

* JavaScript numbers are modelled as `ℚ`.  A JavaScript arithmetic result
  that is not a finite number (`NaN` or `±Infinity`, which only arise here
  from division by zero) is modelled as `none : Option ℚ`.
* JavaScript objects used as string-keyed records (`Record<string, T>`)
  are modelled as association lists `List (String × T)` in insertion
  order; `Object.keys` / `Object.values` / the `in` operator read that
  list in order.
* Strings handled character-by-character (the reason-string parser) are
  modelled as `List Char`.
-/

namespace OffBeat

-- ---------------------------------------------------------------------------
-- Data model (placeholderData.ts)
-- ---------------------------------------------------------------------------

/-- The nine audio dimensions of the `AudioMeans` interface. -/
inductive AudioFeature : Type
  | acousticness
  | danceability
  | energy
  | instrumentalness
  | liveness
  | loudness
  | speechiness
  | tempo
  | valence
deriving DecidableEq

/-- `Object.keys(AUDIO_FEATURE_META)` order: the insertion order of the
`AUDIO_FEATURE_META` record literal in `placeholderData.ts`. -/
def audioFeaturesOrder : List AudioFeature :=
  [.energy, .danceability, .valence, .acousticness, .speechiness,
   .instrumentalness, .liveness, .loudness, .tempo]

/-- `AudioMeans`: one number per audio dimension. -/
structure AudioMeans where
  acousticness : ℚ
  danceability : ℚ
  energy : ℚ
  instrumentalness : ℚ
  liveness : ℚ
  loudness : ℚ
  speechiness : ℚ
  tempo : ℚ
  valence : ℚ
deriving DecidableEq

/-- Field access `audio_means[f]` for a statically known dimension key. -/
def audioGet (m : AudioMeans) : AudioFeature → ℚ
  | .acousticness => m.acousticness
  | .danceability => m.danceability
  | .energy => m.energy
  | .instrumentalness => m.instrumentalness
  | .liveness => m.liveness
  | .loudness => m.loudness
  | .speechiness => m.speechiness
  | .tempo => m.tempo
  | .valence => m.valence

/-- `CentroidFeatures`. -/
structure CentroidFeatures where
  audio_means : AudioMeans
  top_tags : List String
  tag_weights_top : List (String × ℚ)
deriving DecidableEq

/-- `AnalysisTrack`.  The TypeScript field `cluster_id` is declared
`number`, but `transformAnalysisResponse` defends against a missing value
with `t.cluster_id ?? c.cluster_id`, so it is modelled as `Option ℚ`
(`none` = `undefined`). -/
structure AnalysisTrack where
  spotify_id : String
  title : String
  cluster_id : Option ℚ
  anomaly_score : ℚ
  is_anomaly : Bool
  reason : String
deriving DecidableEq

/-- `Cluster`. -/
structure Cluster where
  cluster_id : ℚ
  size : ℚ
  centroid_features : CentroidFeatures
  tracks : List AnalysisTrack
deriving DecidableEq

/-- `Anomaly`. -/
structure Anomaly where
  spotify_id : String
  title : String
  cluster_id : ℚ
  anomaly_score : ℚ
  reason : String
deriving DecidableEq

/-- `PlaylistSummary`. -/
structure PlaylistSummary where
  num_tracks : ℚ
  num_eligible : ℚ
  num_excluded_missing_all : ℚ
  num_excluded_insufficient_audio_cluster : ℚ
  num_clusters : ℚ
  num_anomalies : ℚ
  anomaly_score_cutoff : ℚ
deriving DecidableEq

/-- `AnalysisPlaylist`; `clusters : Record<string, Cluster>` is an
association list keyed by mood label, in insertion order. -/
structure AnalysisPlaylist where
  playlist_id : String
  playlist_name : String
  summary : PlaylistSummary
  clusters : List (String × Cluster)
  anomalies : List Anomaly
deriving DecidableEq

/-- `AnalysisResult`. -/
structure AnalysisResult where
  generated_at : String
  num_playlists : ℚ
  playlists : List AnalysisPlaylist
deriving DecidableEq

/-- The exclusion-accounting equation of the spec, for one summary. -/
def exclusionAccounting (s : PlaylistSummary) : Prop :=
  s.num_tracks =
    s.num_eligible + s.num_excluded_missing_all +
      s.num_excluded_insufficient_audio_cluster

instance (s : PlaylistSummary) : Decidable (exclusionAccounting s) := by
  unfold exclusionAccounting; infer_instance

-- ---------------------------------------------------------------------------
-- AUDIO_FEATURE_META and FeatureBar
-- ---------------------------------------------------------------------------

/-- One entry of `AUDIO_FEATURE_META`. -/
structure FeatureMeta where
  label : String
  color : String
  unit : String
  min : ℚ
  max : ℚ
deriving DecidableEq

/-- `AUDIO_FEATURE_META` from `placeholderData.ts`. -/
def AUDIO_FEATURE_META : AudioFeature → FeatureMeta
  | .energy => ⟨"Energy", "bg-brand-cyan", "%", 0, 1⟩
  | .danceability => ⟨"Danceability", "bg-brand-magenta", "%", 0, 1⟩
  | .valence => ⟨"Valence", "bg-yellow-400", "%", 0, 1⟩
  | .acousticness => ⟨"Acousticness", "bg-green-400", "%", 0, 1⟩
  | .speechiness => ⟨"Speechiness", "bg-orange-400", "%", 0, 1⟩
  | .instrumentalness => ⟨"Instrumentalness", "bg-purple-400", "%", 0, 1⟩
  | .liveness => ⟨"Liveness", "bg-brand-teal", "%", 0, 1⟩
  | .loudness => ⟨"Loudness", "bg-red-400", "dB", -20, 0⟩
  | .tempo => ⟨"Tempo", "bg-brand-lavender", "BPM", 60, 200⟩

/-- `FeatureBar`'s raw percentage (`pct` in `ActionDashboard.tsx`):
loudness (−20..0 dB) and tempo (60..200 BPM) are mapped linearly onto
0..100, every other unit is treated as a unit-interval value. -/
def featureBarPct (unit : String) (value : ℚ) : ℚ :=
  if unit = "dB" then ((value - (-20)) / 20) * 100
  else if unit = "BPM" then ((value - 60) / 140) * 100
  else value * 100

/-- The rendered bar width: `Math.max(0, Math.min(100, pct))`. -/
def featureBarWidth (unit : String) (value : ℚ) : ℚ :=
  max 0 (min 100 (featureBarPct unit value))

-- ---------------------------------------------------------------------------
-- CompareView helpers (ActionDashboard.tsx)
-- ---------------------------------------------------------------------------

/-- JavaScript division: a zero denominator yields `NaN` (for `0/0`) or
`±Infinity`, both modelled as `none`; otherwise the exact quotient. -/
def jsDiv (a b : ℚ) : Option ℚ :=
  if b = 0 then none else some (a / b)

/-- `Object.values(p.clusters)`. -/
def clusterValues (p : AnalysisPlaylist) : List Cluster :=
  p.clusters.map Prod.snd

/-- `Object.keys(p.clusters)`. -/
def clusterKeys (p : AnalysisPlaylist) : List String :=
  p.clusters.map Prod.fst

/-- `clusters.reduce((s, c) => s + c.size, 0)` — the weight total used by
`avgAudio`. -/
def clusterSizeTotal (p : AnalysisPlaylist) : ℚ :=
  (clusterValues p).foldl (fun s c => s + c.size) 0

/-- `avgAudio` from `CompareView`, one audio dimension at a time:
`clusters.reduce((s, c) => s + c.centroid_features.audio_means[f] * c.size, 0) / total`. -/
def avgAudio (p : AnalysisPlaylist) (f : AudioFeature) : Option ℚ :=
  jsDiv
    ((clusterValues p).foldl
      (fun s c => s + audioGet c.centroid_features.audio_means f * c.size) 0)
    (clusterSizeTotal p)

/-- First-occurrence deduplication, the iteration order of a JavaScript
`Set` built by repeated `add`. -/
def jsSetAux (seen : List String) : List String → List String
  | [] => []
  | x :: xs =>
      if seen.contains x then jsSetAux seen xs
      else x :: jsSetAux (x :: seen) xs

/-- `allClusters` in `CompareView`: every cluster label of every compared
playlist, first occurrence first (`Set` insertion order). -/
def allClusterLabels (ps : List AnalysisPlaylist) : List String :=
  jsSetAux [] (ps.flatMap clusterKeys)

/-- `cluster in p.clusters` — key membership in the clusters record. -/
def hasLabel (p : AnalysisPlaylist) (label : String) : Bool :=
  (clusterKeys p).contains label

/-- `clusterPresence[cluster] = playlists.map(p => cluster in p.clusters)`. -/
def clusterPresence (ps : List AnalysisPlaylist) (label : String) : List Bool :=
  ps.map (fun p => hasLabel p label)

/-- The "Present in All Playlists" set:
`clusterArray.filter(c => clusterPresence[c].every(p => p))`. -/
def sharedLabels (ps : List AnalysisPlaylist) : List String :=
  (allClusterLabels ps).filter (fun l => (clusterPresence ps l).all id)

/-- The "Unique Clusters" set:
`clusterArray.filter(c => clusterPresence[c].filter(p => p).length === 1)`. -/
def uniqueLabels (ps : List AnalysisPlaylist) : List String :=
  (allClusterLabels ps).filter
    (fun l => ((clusterPresence ps l).filter id).length = 1)

-- ---------------------------------------------------------------------------
-- PLACEHOLDER_ANALYSIS (placeholderData.ts)
-- ---------------------------------------------------------------------------

/-- First playlist of `PLACEHOLDER_ANALYSIS` ("sahith songs"). -/
def placeholderPlaylist1 : AnalysisPlaylist where
  playlist_id := "7qF4mOQrz3xPssEeYTc53q"
  playlist_name := "sahith songs"
  summary :=
    { num_tracks := 701, num_eligible := 658, num_excluded_missing_all := 43,
      num_excluded_insufficient_audio_cluster := 0, num_clusters := 8,
      num_anomalies := 99, anomaly_score_cutoff := 0.773 }
  clusters :=
    [("high_energy_sad_fast",
      { cluster_id := 4, size := 102,
        centroid_features :=
          { audio_means :=
              { acousticness := 0.075, danceability := 0.688, energy := 0.674,
                instrumentalness := 0.002, liveness := 0.160, loudness := -5.07,
                speechiness := 0.074, tempo := 142.56, valence := 0.225 },
            top_tags := ["rap", "trap", "hip", "hop", "pop", "hip-hop", "rage", "cloud"],
            tag_weights_top :=
              [("rap", 0.133), ("trap", 0.109), ("hip", 0.065), ("hop", 0.065),
               ("pop", 0.058), ("hip-hop", 0.044), ("rage", 0.042), ("cloud", 0.036)] },
        tracks :=
          [{ spotify_id := "3aQem4jVGdhtg116TmJnHz", title := "What's Next",
             cluster_id := some 4, anomaly_score := 0.644, is_anomaly := false, reason := "" },
           { spotify_id := "08dz3ygXyFur6bL7Au8u8J", title := "Over",
             cluster_id := some 4, anomaly_score := 0.658, is_anomaly := false, reason := "" },
           { spotify_id := "5UwhSyAaU6b5RHeYPzxZld", title := "LIL DEMON",
             cluster_id := some 4, anomaly_score := 0.660, is_anomaly := false, reason := "" }] }),
     ("medium_energy_sad",
      { cluster_id := 6, size := 70,
        centroid_features :=
          { audio_means :=
              { acousticness := 0.129, danceability := 0.526, energy := 0.594,
                instrumentalness := 0.011, liveness := 0.173, loudness := -6.75,
                speechiness := 0.064, tempo := 101.53, valence := 0.241 },
            top_tags := ["rap", "trap", "rnb", "pop", "hop", "hip", "electronic", "soul"],
            tag_weights_top :=
              [("rap", 0.120), ("trap", 0.098), ("rnb", 0.070), ("pop", 0.065),
               ("hop", 0.058), ("hip", 0.055), ("electronic", 0.035), ("soul", 0.028)] },
        tracks :=
          [{ spotify_id := "3CDVMejYHnB1SkEEx0T1N4", title := "PRIDE.",
             cluster_id := some 6, anomaly_score := 0.520, is_anomaly := false, reason := "" },
           { spotify_id := "1mWGaYN0MCECbiYWfaJwm6", title := "Snooze",
             cluster_id := some 6, anomaly_score := 0.542, is_anomaly := false, reason := "" }] }),
     ("medium_energy_sad_fast",
      { cluster_id := 2, size := 90,
        centroid_features :=
          { audio_means :=
              { acousticness := 0.114, danceability := 0.727, energy := 0.609,
                instrumentalness := 0.001, liveness := 0.182, loudness := -6.51,
                speechiness := 0.314, tempo := 155.58, valence := 0.363 },
            top_tags := ["rap", "trap", "hop", "hip", "pop", "hip-hop", "southern", "lil"],
            tag_weights_top :=
              [("rap", 0.135), ("trap", 0.116), ("hop", 0.092), ("hip", 0.090),
               ("pop", 0.051), ("hip-hop", 0.049), ("southern", 0.027), ("lil", 0.026)] },
        tracks :=
          [{ spotify_id := "2FvD20Z8aoWIePi7PoN8sG", title := "TOES (feat. Lil Baby & Moneybagg Yo)",
             cluster_id := some 2, anomaly_score := 0.529, is_anomaly := false, reason := "" },
           { spotify_id := "5AqiaRGBPOmjUGaNPMaBb9", title := "Life Is Good (feat. Drake)",
             cluster_id := some 2, anomaly_score := 0.540, is_anomaly := false, reason := "" }] }),
     ("high_energy_neutral",
      { cluster_id := 5, size := 74,
        centroid_features :=
          { audio_means :=
              { acousticness := 0.198, danceability := 0.684, energy := 0.685,
                instrumentalness := 0.0, liveness := 0.195, loudness := -6.32,
                speechiness := 0.302, tempo := 96.89, valence := 0.524 },
            top_tags := ["hip", "hop", "rap", "hip-hop", "west", "conscious", "kanye", "trap"],
            tag_weights_top :=
              [("hip", 0.139), ("hop", 0.138), ("rap", 0.114), ("hip-hop", 0.101),
               ("west", 0.073), ("conscious", 0.063), ("kanye", 0.063), ("trap", 0.046)] },
        tracks :=
          [{ spotify_id := "3s7MCdkMT6eDgvmOJhtPcz", title := "All Of The Lights",
             cluster_id := some 5, anomaly_score := 0.410, is_anomaly := false, reason := "" },
           { spotify_id := "7nPhf1YW1gZZP8kN6kn5fQ", title := "Gorgeous",
             cluster_id := some 5, anomaly_score := 0.450, is_anomaly := false, reason := "" }] }),
     ("high_energy_happy",
      { cluster_id := 7, size := 86,
        centroid_features :=
          { audio_means :=
              { acousticness := 0.160, danceability := 0.769, energy := 0.714,
                instrumentalness := 0.001, liveness := 0.159, loudness := -5.29,
                speechiness := 0.097, tempo := 127.30, valence := 0.672 },
            top_tags := ["rap", "pop", "trap", "rnb", "hip", "hop", "hip-hop", "kpop"],
            tag_weights_top :=
              [("rap", 0.099), ("pop", 0.092), ("trap", 0.086), ("rnb", 0.044),
               ("hip", 0.040), ("hop", 0.040), ("hip-hop", 0.034), ("kpop", 0.030)] },
        tracks :=
          [{ spotify_id := "4h9wh7iOZ0GGn8QVp4RAOB", title := "I Ain't Worried",
             cluster_id := some 7, anomaly_score := 0.482, is_anomaly := false, reason := "" },
           { spotify_id := "2LBqCSwhJGcFQeTHMVGwy3", title := "Die For You",
             cluster_id := some 7, anomaly_score := 0.500, is_anomaly := false, reason := "" }] })]
  anomalies :=
    [{ spotify_id := "3CDVMejYHnB1SkEEx0T1N4", title := "Many Men", cluster_id := 6,
       anomaly_score := 1.0,
       reason := "Anomalous vs dominant mood 'high_energy_sad_fast'. distance_score=1.00. lower tempo by 65 BPM; higher loudness by 0.7 dB; higher energy by 0.12" },
     { spotify_id := "5DxDLsW6PsLz5gkwC7Mk5S", title := "Free", cluster_id := 4,
       anomaly_score := 0.904,
       reason := "Anomalous vs dominant mood 'high_energy_sad_fast'. distance_score=0.90. lower tempo by 3 BPM; lower loudness by 0.5 dB; higher valence by 0.21" },
     { spotify_id := "5wNIHa6wvCCKP6fWgo3UAh", title := "CHAMPAIN & VACAY", cluster_id := 2,
       anomaly_score := 0.877,
       reason := "Anomalous vs dominant mood 'high_energy_sad_fast'. distance_score=0.88. higher tempo by 3 BPM; lower loudness by 0.8 dB; lower danceability by 0.15" },
     { spotify_id := "6cfVDaIdvDtYH91RqC6Wox", title := "Hol' Up", cluster_id := 5,
       anomaly_score := 0.876,
       reason := "Anomalous vs dominant mood 'high_energy_sad_fast'. distance_score=0.88. higher tempo by 13 BPM; higher acousticness by 0.71; higher valence by 0.35" },
     { spotify_id := "7lsYGc5H5DHktxO7gbB8bN", title := "Ordinary Life", cluster_id := 6,
       anomaly_score := 0.869,
       reason := "Anomalous vs dominant mood 'high_energy_sad_fast'. distance_score=0.87. higher tempo by 7 BPM; lower loudness by 2.4 dB; lower danceability by 0.14" },
     { spotify_id := "4vqwVaEqLNWo3UXhQi5IFH", title := "FLORIDA FLOW", cluster_id := 2,
       anomaly_score := 0.865,
       reason := "Anomalous vs dominant mood 'high_energy_sad_fast'. distance_score=0.86. lower tempo by 18 BPM; lower loudness by 1.3 dB; higher speechiness by 0.15" },
     { spotify_id := "0IX5OFffosy8wk16m1IFCa", title := "Drugs N Hella Melodies (feat. Kali Uchis)",
       cluster_id := 4, anomaly_score := 0.861,
       reason := "Anomalous vs dominant mood 'high_energy_sad_fast'. distance_score=0.86. higher tempo by 4 BPM; lower loudness by 1.8 dB; higher acousticness by 0.19" },
     { spotify_id := "03auLpFLdCv4HozP4pQseu", title := "ATM", cluster_id := 2,
       anomaly_score := 0.859,
       reason := "Anomalous vs dominant mood 'high_energy_sad_fast'. distance_score=0.86. higher tempo by 27 BPM; lower loudness by 1.1 dB; higher acousticness by 0.24" },
     { spotify_id := "38HkYfvnhHLLB5Yaj2VpZg", title := "No Photos", cluster_id := 7,
       anomaly_score := 0.848,
       reason := "Anomalous vs dominant mood 'high_energy_sad_fast'. distance_score=0.85. lower tempo by 9 BPM; lower loudness by 0.4 dB; higher acousticness by 0.22" },
     { spotify_id := "1I37Zz2g3hk9eWxaNkj031", title := "90210 (feat. Kacy Hill)", cluster_id := 4,
       anomaly_score := 0.840,
       reason := "Anomalous vs dominant mood 'high_energy_sad_fast'. distance_score=0.84. lower tempo by 55 BPM; lower loudness by 1.2 dB; higher acousticness by 0.08" },
     { spotify_id := "5nCaV4M3sTPGCu4lQ7n8iJ", title := "Heartless", cluster_id := 4,
       anomaly_score := 0.832,
       reason := "Anomalous vs dominant mood 'high_energy_sad_fast'. distance_score=0.83. higher tempo by 8 BPM; higher valence by 0.31; lower danceability by 0.12" },
     { spotify_id := "7qPksyJaBsK25MJFkXn2Jl", title := "Laugh Now Cry Later", cluster_id := 7,
       anomaly_score := 0.821,
       reason := "Anomalous vs dominant mood 'high_energy_sad_fast'. distance_score=0.82. lower tempo by 10 BPM; higher valence by 0.28; higher acousticness by 0.15" }]

/-- Second playlist of `PLACEHOLDER_ANALYSIS` ("hype"). -/
def placeholderPlaylist2 : AnalysisPlaylist where
  playlist_id := "19UHSXDaXJqjYSLS53ZL1Z"
  playlist_name := "hype"
  summary :=
    { num_tracks := 255, num_eligible := 238, num_excluded_missing_all := 17,
      num_excluded_insufficient_audio_cluster := 0, num_clusters := 7,
      num_anomalies := 36, anomaly_score_cutoff := 0.806 }
  clusters :=
    [("high_energy_neutral",
      { cluster_id := 0, size := 24,
        centroid_features :=
          { audio_means :=
              { acousticness := 0.085, danceability := 0.620, energy := 0.780,
                instrumentalness := 0.003, liveness := 0.210, loudness := -4.50,
                speechiness := 0.120, tempo := 130.50, valence := 0.510 },
            top_tags := ["rap", "trap", "hype", "electronic", "bass", "edm", "energy", "pop"],
            tag_weights_top :=
              [("rap", 0.145), ("trap", 0.130), ("hype", 0.095), ("electronic", 0.070),
               ("bass", 0.055), ("edm", 0.048), ("energy", 0.040), ("pop", 0.035)] },
        tracks :=
          [{ spotify_id := "abc123", title := "Sicko Mode",
             cluster_id := some 0, anomaly_score := 0.350, is_anomaly := false, reason := "" },
           { spotify_id := "def456", title := "HUMBLE.",
             cluster_id := some 0, anomaly_score := 0.380, is_anomaly := false, reason := "" }] }),
     ("medium_energy_sad_fast",
      { cluster_id := 1, size := 40,
        centroid_features :=
          { audio_means :=
              { acousticness := 0.095, danceability := 0.710, energy := 0.620,
                instrumentalness := 0.001, liveness := 0.175, loudness := -6.20,
                speechiness := 0.290, tempo := 148.80, valence := 0.340 },
            top_tags := ["rap", "trap", "hop", "hip", "hip-hop", "southern", "dark", "melodic"],
            tag_weights_top :=
              [("rap", 0.140), ("trap", 0.118), ("hop", 0.088), ("hip", 0.085),
               ("hip-hop", 0.052), ("southern", 0.030), ("dark", 0.028), ("melodic", 0.025)] },
        tracks :=
          [{ spotify_id := "ghi789", title := "XO Tour Llif3",
             cluster_id := some 1, anomaly_score := 0.450, is_anomaly := false, reason := "" }] }),
     ("high_energy_happy",
      { cluster_id := 5, size := 31,
        centroid_features :=
          { audio_means :=
              { acousticness := 0.140, danceability := 0.780, energy := 0.740,
                instrumentalness := 0.001, liveness := 0.150, loudness := -4.90,
                speechiness := 0.085, tempo := 122.40, valence := 0.700 },
            top_tags := ["pop", "rap", "dance", "rnb", "party", "hip-hop", "trap", "summer"],
            tag_weights_top :=
              [("pop", 0.110), ("rap", 0.098), ("dance", 0.082), ("rnb", 0.060),
               ("party", 0.050), ("hip-hop", 0.042), ("trap", 0.038), ("summer", 0.030)] },
        tracks :=
          [{ spotify_id := "jkl012", title := "Levitating",
             cluster_id := some 5, anomaly_score := 0.320, is_anomaly := false, reason := "" }] }),
     ("high_energy_sad_fast",
      { cluster_id := 6, size := 39,
        centroid_features :=
          { audio_means :=
              { acousticness := 0.065, danceability := 0.695, energy := 0.700,
                instrumentalness := 0.002, liveness := 0.155, loudness := -4.80,
                speechiness := 0.080, tempo := 145.20, valence := 0.210 },
            top_tags := ["rap", "trap", "rage", "cloud", "hip-hop", "dark", "bass", "electronic"],
            tag_weights_top :=
              [("rap", 0.140), ("trap", 0.120), ("rage", 0.065), ("cloud", 0.050),
               ("hip-hop", 0.042), ("dark", 0.038), ("bass", 0.030), ("electronic", 0.028)] },
        tracks :=
          [{ spotify_id := "mno345", title := "Rockstar",
             cluster_id := some 6, anomaly_score := 0.500, is_anomaly := false, reason := "" }] })]
  anomalies :=
    [{ spotify_id := "pqr678", title := "Blinding Lights", cluster_id := 5,
       anomaly_score := 0.920,
       reason := "Anomalous vs dominant mood 'high_energy_sad_fast'. distance_score=0.92. higher valence by 0.45; lower speechiness by 0.20; higher acousticness by 0.18" },
     { spotify_id := "stu901", title := "Save Your Tears", cluster_id := 5,
       anomaly_score := 0.880,
       reason := "Anomalous vs dominant mood 'high_energy_sad_fast'. distance_score=0.88. higher valence by 0.38; higher acousticness by 0.25; lower energy by 0.10" },
     { spotify_id := "vwx234", title := "Starboy", cluster_id := 0,
       anomaly_score := 0.850,
       reason := "Anomalous vs dominant mood 'high_energy_sad_fast'. distance_score=0.85. lower tempo by 20 BPM; higher valence by 0.30; higher danceability by 0.12" },
     { spotify_id := "yza567", title := "The Hills", cluster_id := 6,
       anomaly_score := 0.830,
       reason := "Anomalous vs dominant mood 'high_energy_sad_fast'. distance_score=0.83. lower tempo by 42 BPM; lower energy by 0.15; higher acousticness by 0.22" },
     { spotify_id := "bcd890", title := "Party Monster", cluster_id := 1,
       anomaly_score := 0.815,
       reason := "Anomalous vs dominant mood 'high_energy_sad_fast'. distance_score=0.82. lower tempo by 15 BPM; higher valence by 0.18; lower speechiness by 0.12" }]

/-- `PLACEHOLDER_ANALYSIS` from `placeholderData.ts`. -/
def PLACEHOLDER_ANALYSIS : AnalysisResult where
  generated_at := "2026-02-22T09:13:50.367736+00:00"
  num_playlists := 2
  playlists := [placeholderPlaylist1, placeholderPlaylist2]

-- ---------------------------------------------------------------------------
-- transformAnalysisResponse (api.ts)
-- ---------------------------------------------------------------------------

/-- Raw backend `centroid_features.audio_means : Record<string, number | null>`.
The backend contract carries the nine audio keys, each possibly `null`
(`none`). -/
structure RawAudioMeans where
  acousticness : Option ℚ
  danceability : Option ℚ
  energy : Option ℚ
  instrumentalness : Option ℚ
  liveness : Option ℚ
  loudness : Option ℚ
  speechiness : Option ℚ
  tempo : Option ℚ
  valence : Option ℚ
deriving DecidableEq

/-- Field access on the raw means for a statically known dimension key. -/
def rawAudioGet (m : RawAudioMeans) : AudioFeature → Option ℚ
  | .acousticness => m.acousticness
  | .danceability => m.danceability
  | .energy => m.energy
  | .instrumentalness => m.instrumentalness
  | .liveness => m.liveness
  | .loudness => m.loudness
  | .speechiness => m.speechiness
  | .tempo => m.tempo
  | .valence => m.valence

/-- `RawCluster` of the raw backend response. -/
structure RawCluster where
  cluster_id : ℚ
  label : String
  size : ℚ
  audio_means : RawAudioMeans
  top_tags : List String
  tag_weights_top : List (String × ℚ)
  member_track_ids : List String
  tracks : List AnalysisTrack
deriving DecidableEq

/-- `RawAnalysisPlaylist`.  The `moods : Record<string, unknown>` field is
ignored by `transformAnalysisResponse` and omitted from the embedding. -/
structure RawAnalysisPlaylist where
  playlist_id : String
  playlist_name : String
  clusters : List RawCluster
  summary : PlaylistSummary
deriving DecidableEq

/-- `RawAnalysisResponse`. -/
structure RawAnalysisResponse where
  num_playlists : ℚ
  playlists : List RawAnalysisPlaylist
deriving DecidableEq

/-- `Object.fromEntries(Object.entries(audio_means).map(([k, v]) => [k, v ?? 0]))`:
every `null` dimension becomes the number 0, dimension by dimension. -/
def transformAudioMeans (m : RawAudioMeans) : AudioMeans where
  acousticness := m.acousticness.getD 0
  danceability := m.danceability.getD 0
  energy := m.energy.getD 0
  instrumentalness := m.instrumentalness.getD 0
  liveness := m.liveness.getD 0
  loudness := m.loudness.getD 0
  speechiness := m.speechiness.getD 0
  tempo := m.tempo.getD 0
  valence := m.valence.getD 0

/-- The cluster value stored under `clusters[c.label]` by
`transformAnalysisResponse`. -/
def transformCluster (c : RawCluster) : Cluster where
  cluster_id := c.cluster_id
  size := c.size
  centroid_features :=
    { audio_means := transformAudioMeans c.audio_means,
      top_tags := c.top_tags,
      tag_weights_top := c.tag_weights_top }
  tracks := c.tracks

/-- JavaScript object assignment `m[k] = v`: an existing key keeps its
position and gets the new value, a new key is appended. -/
def recordSet (m : List (String × Cluster)) (k : String) (v : Cluster) :
    List (String × Cluster) :=
  if (m.map Prod.fst).contains k then
    m.map (fun kv => if kv.1 = k then (k, v) else kv)
  else m ++ [(k, v)]

/-- The `for (const c of p.clusters) clusters[c.label] = …` loop. -/
def buildClustersRecord (cs : List RawCluster) : List (String × Cluster) :=
  cs.foldl (fun m c => recordSet m c.label (transformCluster c)) []

/-- The anomaly extraction loop: for each cluster in order, each track in
order, push the tracks flagged `is_anomaly`. -/
def collectAnomalies (cs : List RawCluster) : List Anomaly :=
  cs.flatMap (fun c =>
    (c.tracks.filter (fun t => t.is_anomaly)).map (fun t =>
      { spotify_id := t.spotify_id
        title := t.title
        cluster_id := t.cluster_id.getD c.cluster_id
        anomaly_score := t.anomaly_score
        reason := t.reason }))

/-- One insertion step of the stable descending sort: `a` goes in front of
the first element whose score is strictly below `a`'s, so equal scores keep
their original relative order. -/
def insertByScoreDesc (a : Anomaly) : List Anomaly → List Anomaly
  | [] => [a]
  | b :: bs =>
      if b.anomaly_score < a.anomaly_score then a :: b :: bs
      else b :: insertByScoreDesc a bs

/-- `anomalies.sort((a, b) => b.anomaly_score - a.anomaly_score)`:
JavaScript `Array.prototype.sort` is stable and this comparator orders by
descending score, which determines the output uniquely; the stable
insertion sort computes exactly that output. -/
def sortByScoreDesc (l : List Anomaly) : List Anomaly :=
  l.foldl (fun acc a => insertByScoreDesc a acc) []

/-- The per-playlist body of `transformAnalysisResponse`. -/
def transformAnalysisPlaylist (p : RawAnalysisPlaylist) : AnalysisPlaylist where
  playlist_id := p.playlist_id
  playlist_name := p.playlist_name
  summary := p.summary
  clusters := buildClustersRecord p.clusters
  anomalies := sortByScoreDesc (collectAnomalies p.clusters)

/-- `transformAnalysisResponse` from `api.ts`.  The function reads the
ambient wall clock through `new Date().toISOString()`; that clock reading
is made an explicit argument `now`, so one source-level run corresponds to
`transformAnalysisResponse now raw` at the instant `now`. -/
def transformAnalysisResponse (now : String) (raw : RawAnalysisResponse) :
    AnalysisResult where
  generated_at := now
  num_playlists := raw.num_playlists
  playlists := raw.playlists.map transformAnalysisPlaylist

-- ---------------------------------------------------------------------------
-- parseAnomalyReason (placeholderData.ts)
-- ---------------------------------------------------------------------------

/-- JavaScript regex `\w`: `[A-Za-z0-9_]`. -/
def isWordChar (c : Char) : Bool := c.isAlpha || c.isDigit || c = '_'

/-- JavaScript regex character class `[\d.]`. -/
def isDigitDot (c : Char) : Bool := c.isDigit || c = '.'

/-- `leadsWith pat s`: `s` starts with the literal characters `pat`. -/
def leadsWith : List Char → List Char → Bool
  | [], _ => true
  | _ :: _, [] => false
  | a :: as, b :: bs => if a = b then leadsWith as bs else false

/-- Leftmost-match regex search: try the pattern matcher at each position
from the left, as a JavaScript regex engine does. -/
def scanFor (tryAt : List Char → Option α) : List Char → Option α
  | [] => none
  | c :: cs =>
      match tryAt (c :: cs) with
      | some r => some r
      | none => scanFor tryAt cs

/-- The literal part of `/dominant mood '([^']+)'/`. -/
def moodPat : List Char := "dominant mood '".toList

/-- The literal part of `/distance_score=([\d.]+)/`. -/
def distPat : List Char := "distance_score=".toList

/-- One anchored attempt of `/dominant mood '([^']+)'/`: the literal
prefix, then a non-empty greedy run of non-quote characters, then the
closing quote (greedy `[^']+` cannot backtrack into a successful close, so
the attempt is deterministic). -/
def matchMoodAt (s : List Char) : Option (List Char) :=
  if leadsWith moodPat s then
    let rest := s.drop moodPat.length
    let cap := rest.takeWhile (fun c => c ≠ '\'')
    if cap = [] then none
    else if rest.dropWhile (fun c => c ≠ '\'') = [] then none
    else some cap
  else none

/-- One anchored attempt of `/distance_score=([\d.]+)/`. -/
def matchDistAt (s : List Char) : Option (List Char) :=
  if leadsWith distPat s then
    let cap := (s.drop distPat.length).takeWhile isDigitDot
    if cap = [] then none else some cap
  else none

/-- The two alternatives of the union type `"higher" | "lower"`. -/
inductive Direction : Type
  | higher
  | lower
deriving DecidableEq

/-- The characters of a direction word. -/
def dirWord : Direction → List Char
  | .higher => "higher".toList
  | .lower => "lower".toList

/-- One element of the `deviations` array built by `parseAnomalyReason`:
capture groups 2 (feature), 1 (direction) and 3 (amount, kept as the raw
matched text). -/
structure Deviation where
  feature : List Char
  direction : Direction
  amount : List Char
deriving DecidableEq

/-- `"higher "` — the first alternative plus the literal space. -/
def higherPat : List Char := "higher ".toList

/-- `"lower "` — the second alternative plus the literal space. -/
def lowerPat : List Char := "lower ".toList

/-- `" by "` — the literal between feature and amount. -/
def byPat : List Char := " by ".toList

/-- `(higher|lower) ` with the following literal space: the alternatives
start with different characters, so the alternation is deterministic. -/
def stripDir (s : List Char) : Option (Direction × List Char) :=
  if leadsWith higherPat s then some (.higher, s.drop 7)
  else if leadsWith lowerPat s then some (.lower, s.drop 6)
  else none

/-- One anchored attempt of `/(higher|lower) (\w+) by ([\d.]+ \w+)/`.
Each greedy run (`\w+`, `[\d.]+`) is followed in the pattern by a
character outside its class, so a failed continuation cannot be repaired
by backtracking into the run and the attempt is deterministic. -/
def tryDevAt (s : List Char) : Option (Deviation × List Char) :=
  match stripDir s with
  | none => none
  | some (dir, s1) =>
      let feat := s1.takeWhile isWordChar
      let s2 := s1.dropWhile isWordChar
      if feat = [] then none
      else if leadsWith byPat s2 then
        let s3 := s2.drop 4
        let amt := s3.takeWhile isDigitDot
        let s4 := s3.dropWhile isDigitDot
        if amt = [] then none
        else
          match s4 with
          | [] => none
          | c :: s5 =>
              if c = ' ' then
                let unit := s5.takeWhile isWordChar
                let s6 := s5.dropWhile isWordChar
                if unit = [] then none
                else some (⟨feat, dir, amt ++ ' ' :: unit⟩, s6)
              else none
      else none

/-- The `while ((m = devRegex.exec(reason)) !== null)` loop with fuel: at
each position try the pattern; on success emit the match and resume after
it (`lastIndex`), otherwise move one character right.  `devScan` supplies
the string length as fuel, which always suffices because every step
consumes at least one character. -/
def devScanF : ℕ → List Char → List Deviation
  | 0, _ => []
  | _ + 1, [] => []
  | fuel + 1, c :: cs =>
      match tryDevAt (c :: cs) with
      | some (d, rest) => d :: devScanF fuel rest
      | none => devScanF fuel cs

/-- All matches of the global deviation regex, leftmost first. -/
def devScan (s : List Char) : List Deviation := devScanF s.length s

/-- Digit run to a natural number. -/
def digitsToNat (l : List Char) : ℕ := l.foldl (fun a c => 10 * a + (c.toNat - 48)) 0

/-- JavaScript `parseFloat`, restricted to what its call sites here can
receive: both captures feeding it match `[\d.]+`, so sign, exponent and
whitespace cannot occur.  It reads a leading digit run, an optional dot
with a second digit run, stops at anything else, and is `NaN` (`none`)
when no digit was read. -/
def jsParseFloat (s : List Char) : Option ℚ :=
  let ip := s.takeWhile Char.isDigit
  match s.dropWhile Char.isDigit with
  | c :: r2 =>
      if c = '.' then
        let fp := r2.takeWhile Char.isDigit
        if ip = [] && fp = [] then none
        else some ((digitsToNat ip : ℚ) + (digitsToNat fp : ℚ) / 10 ^ fp.length)
      else if ip = [] then none else some ((digitsToNat ip : ℚ))
  | [] => if ip = [] then none else some ((digitsToNat ip : ℚ))

/-- The record returned by `parseAnomalyReason`.  `distanceScore` is a
JavaScript number; `none` models `NaN`. -/
structure ParsedReason where
  dominantMood : List Char
  distanceScore : Option ℚ
  deviations : List Deviation
deriving DecidableEq

/-- `parseAnomalyReason` from `placeholderData.ts`:
`moodMatch?.[1] ?? ""`, `distMatch ? parseFloat(distMatch[1]) : 0`, and
the global deviation-regex loop. -/
def parseAnomalyReason (reason : List Char) : ParsedReason where
  dominantMood := (scanFor matchMoodAt reason).getD []
  distanceScore :=
    match scanFor matchDistAt reason with
    | some cap => jsParseFloat cap
    | none => some 0
  deviations := devScan reason

-- ---------------------------------------------------------------------------
-- The explanation-string grammar (spec §4.4)
-- ---------------------------------------------------------------------------

/-- Modelled from the spec: the Explanation Generator (§4.4) lives in the
backend, which is not part of this repository's sources; this renders one
deviation clause `"<higher|lower> <dimension> by <magnitude><unit>"`,
where the unit is preceded by a space when present (dB, BPM) and absent
for percentage-style features. -/
def renderClause (dir : Direction) (dim mag unit : List Char) : List Char :=
  dirWord dir ++ ' ' :: dim ++ byPat ++ mag ++
    (if unit = [] then [] else ' ' :: unit)

/-- A deviation clause of the spec grammar: direction, dimension name,
magnitude text, unit text (`[]` for percentage-style features). -/
structure SpecClause where
  dir : Direction
  dim : List Char
  mag : List Char
  unit : List Char
deriving DecidableEq

/-- The clauses joined with `"; "`. -/
def joinClauses : List SpecClause → List Char
  | [] => []
  | [q] => renderClause q.dir q.dim q.mag q.unit
  | q :: q2 :: rest =>
      renderClause q.dir q.dim q.mag q.unit ++ ';' :: ' ' ::
        joinClauses (q2 :: rest)

/-- Modelled from the spec: the full reason string of §4.4 —
`"Anomalous vs dominant mood '<label>'. distance_score=<score>."` followed
by the deviation clauses joined with `"; "`. -/
def mkReason (label score : List Char) (clauses : List SpecClause) : List Char :=
  "Anomalous vs dominant mood '".toList ++ label ++
    "'. distance_score=".toList ++ score ++
    '.' :: ' ' :: joinClauses clauses

/-- The character alphabet of a mood label: lowercase letters, digits and
underscores (`high_energy_sad_fast`, numeric disambiguation suffixes). -/
def labelChar (c : Char) : Bool := c.isLower || c.isDigit || c = '_'

/-- The three deviation clauses of the first anomaly of the placeholder
data ("Many Men"): two dB/BPM clauses and one percentage-style clause
rendered without a unit word. -/
def exampleClauses : List SpecClause :=
  [{ dir := .lower, dim := "tempo".toList, mag := "65".toList,
     unit := "BPM".toList },
   { dir := .higher, dim := "loudness".toList, mag := "0.7".toList,
     unit := "dB".toList },
   { dir := .higher, dim := "energy".toList, mag := "0.12".toList,
     unit := [] }]

/-- The grammar rendering of the "Many Men" reason string. -/
def exampleReason : List Char :=
  mkReason "high_energy_sad_fast".toList "1.00".toList exampleClauses

/-- Well-formedness of one grammar clause: a non-empty word-character
dimension name, a non-empty `[0-9.]` magnitude, and a unit made of word
characters (empty for percentage-style features). -/
def clauseOk (q : SpecClause) : Bool :=
  !q.dim.isEmpty && q.dim.all isWordChar &&
    !q.mag.isEmpty && q.mag.all isDigitDot && q.unit.all isWordChar

-- ---------------------------------------------------------------------------
-- Helper lemmas
-- ---------------------------------------------------------------------------

/-- A left fold that only adds is the sum of the mapped list. -/
theorem foldl_add_eq_sum {α : Type} (g : α → ℚ) (l : List α) :
    ∀ a : ℚ, l.foldl (fun s c => s + g c) a = a + (l.map g).sum := by
  induction l with
  | nil => intro a; simp
  | cons c cs ih => intro a; simp [ih]; ring

/-- `clusterSizeTotal` is the sum of the cluster sizes. -/
theorem clusterSizeTotal_eq_sum (p : AnalysisPlaylist) :
    clusterSizeTotal p = ((clusterValues p).map (fun c => c.size)).sum := by
  simpa using foldl_add_eq_sum (fun c => c.size) (clusterValues p) 0

/-- Inserting keeps the same elements, in some order. -/
theorem insertByScoreDesc_perm (a : Anomaly) (l : List Anomaly) :
    List.Perm (insertByScoreDesc a l) (a :: l) := by
  induction l with
  | nil => simp [insertByScoreDesc]
  | cons b bs ih =>
      by_cases hb : b.anomaly_score < a.anomaly_score
      · simp [insertByScoreDesc, hb]
      · simp only [insertByScoreDesc, if_neg hb]
        exact (ih.cons b).trans (List.Perm.swap a b bs)

/-- Membership after one insertion. -/
theorem mem_insertByScoreDesc {x a : Anomaly} {l : List Anomaly} :
    x ∈ insertByScoreDesc a l ↔ x = a ∨ x ∈ l := by
  rw [(insertByScoreDesc_perm a l).mem_iff]; simp

/-- Inserting preserves the non-increasing-score invariant. -/
theorem pairwise_insertByScoreDesc (a : Anomaly) (l : List Anomaly)
    (h : l.Pairwise (fun x y => y.anomaly_score ≤ x.anomaly_score)) :
    (insertByScoreDesc a l).Pairwise (fun x y => y.anomaly_score ≤ x.anomaly_score) := by
  induction l with
  | nil => simp [insertByScoreDesc]
  | cons b bs ih =>
      rcases List.pairwise_cons.mp h with ⟨hb, hbs⟩
      by_cases hlt : b.anomaly_score < a.anomaly_score
      · simp only [insertByScoreDesc, if_pos hlt]
        refine List.pairwise_cons.mpr ⟨?_, h⟩
        intro y hy
        rcases List.mem_cons.mp hy with rfl | hy
        · exact le_of_lt hlt
        · exact (hb y hy).trans (le_of_lt hlt)
      · simp only [insertByScoreDesc, if_neg hlt]
        refine List.pairwise_cons.mpr ⟨?_, ih hbs⟩
        intro y hy
        rcases mem_insertByScoreDesc.mp hy with rfl | hy
        · exact le_of_not_lt hlt
        · exact hb y hy

/-- The sort returns a permutation of its input. -/
theorem sortByScoreDesc_perm (l : List Anomaly) :
    List.Perm (sortByScoreDesc l) l := by
  have aux : ∀ (l acc : List Anomaly),
      List.Perm (l.foldl (fun acc a => insertByScoreDesc a acc) acc) (acc ++ l) := by
    intro l
    induction l with
    | nil => intro acc; simp
    | cons a as ih =>
        intro acc
        have h1 := ih (insertByScoreDesc a acc)
        have h2 : List.Perm (insertByScoreDesc a acc ++ as) (acc ++ a :: as) :=
          ((insertByScoreDesc_perm a acc).append_right as).trans
            List.perm_middle.symm
        exact h1.trans h2
  simpa using aux l []

/-- The sort output is non-increasing in `anomaly_score`. -/
theorem sortByScoreDesc_pairwise (l : List Anomaly) :
    (sortByScoreDesc l).Pairwise (fun x y => y.anomaly_score ≤ x.anomaly_score) := by
  have aux : ∀ (l acc : List Anomaly),
      acc.Pairwise (fun x y => y.anomaly_score ≤ x.anomaly_score) →
      (l.foldl (fun acc a => insertByScoreDesc a acc) acc).Pairwise
        (fun x y => y.anomaly_score ≤ x.anomaly_score) := by
    intro l
    induction l with
    | nil => intro acc h; simpa using h
    | cons a as ih =>
        intro acc h
        exact ih _ (pairwise_insertByScoreDesc a acc h)
  exact aux l [] (by simp)

-- ---------------------------------------------------------------------------
-- String-scanning lemmas for the reason-string parser
-- ---------------------------------------------------------------------------

/-- A pattern matches the start of its own extension. -/
theorem leadsWith_self_append (pat t : List Char) :
    leadsWith pat (pat ++ t) = true := by
  induction pat with
  | nil => rfl
  | cons a as ih => simp [leadsWith, ih]

/-- `leadsWith` is equality with the corresponding take. -/
theorem leadsWith_iff_take (pat : List Char) : ∀ t : List Char,
    leadsWith pat t = true ↔ t.take pat.length = pat := by
  induction pat with
  | nil => intro t; simp [leadsWith]
  | cons a as ih =>
      intro t
      cases t with
      | nil => simp [leadsWith]
      | cons b bs =>
          by_cases hab : a = b
          · subst hab; simp [leadsWith, List.take_succ_cons, ih]
          · constructor
            · intro hfalse
              rw [leadsWith, if_neg hab] at hfalse
              exact absurd hfalse (by simp)
            · intro hcon
              rw [List.length_cons, List.take_succ_cons] at hcon
              exact absurd (List.cons.inj hcon).1.symm hab

/-- A matching pattern is no longer than the text. -/
theorem length_le_of_leadsWith (pat t : List Char)
    (h : leadsWith pat t = true) : pat.length ≤ t.length := by
  have := (leadsWith_iff_take pat t).mp h
  have hlen := congrArg List.length this
  simp [List.length_take] at hlen
  omega

/-- `takeWhile` passes over a block that satisfies the predicate. -/
theorem takeWhile_append_all (p : Char → Bool) (l1 l2 : List Char)
    (h : l1.all p = true) :
    (l1 ++ l2).takeWhile p = l1 ++ l2.takeWhile p := by
  induction l1 with
  | nil => simp
  | cons a as ih =>
      simp only [List.all_cons, Bool.and_eq_true] at h
      simp [List.takeWhile_cons, h.1, ih h.2]

/-- `dropWhile` passes over a block that satisfies the predicate. -/
theorem dropWhile_append_all (p : Char → Bool) (l1 l2 : List Char)
    (h : l1.all p = true) :
    (l1 ++ l2).dropWhile p = l2.dropWhile p := by
  induction l1 with
  | nil => simp
  | cons a as ih =>
      simp only [List.all_cons, Bool.and_eq_true] at h
      simp [List.dropWhile_cons, h.1, ih h.2]

/-- `takeWhile` keeps a list all of whose elements pass. -/
theorem takeWhile_all (p : Char → Bool) (l : List Char) (h : l.all p = true) :
    l.takeWhile p = l := by
  simpa using takeWhile_append_all p l [] h

/-- `dropWhile` exhausts a list all of whose elements pass. -/
theorem dropWhile_all (p : Char → Bool) (l : List Char) (h : l.all p = true) :
    l.dropWhile p = [] := by
  simpa using dropWhile_append_all p l [] h

/-- A pattern that contains a character failing `p` and does not contain
`c0` cannot match at a position where the text is a `p`-block followed by
`c0`. -/
theorem leadsWith_straddle_false (pat l1 : List Char) (c0 : Char)
    (l2 : List Char) (p : Char → Bool) (h1 : l1.all p = true)
    (hbad : ∃ b ∈ pat, p b = false) (hc0 : c0 ∉ pat) :
    leadsWith pat (l1 ++ c0 :: l2) = false := by
  by_contra hcon
  have h' : leadsWith pat (l1 ++ c0 :: l2) = true := by
    simpa using hcon
  rw [leadsWith_iff_take, List.take_append_eq_append_take] at h'
  by_cases hle : pat.length ≤ l1.length
  · rw [Nat.sub_eq_zero_of_le hle] at h'
    simp only [List.take_zero, List.append_nil] at h'
    rcases hbad with ⟨b, hbmem, hbp⟩
    have hbl1 : b ∈ l1 := List.mem_of_mem_take (h' ▸ hbmem)
    have := List.all_eq_true.mp h1 b hbl1
    rw [hbp] at this
    exact Bool.false_ne_true this
  · push_neg at hle
    rw [List.take_of_length_le (le_of_lt hle)] at h'
    rw [show pat.length - l1.length = (pat.length - l1.length - 1) + 1 by
      omega] at h'
    rw [List.take_succ_cons] at h'
    exact hc0 (h' ▸ (by simp : c0 ∈ l1 ++ c0 :: (l2.take (pat.length - l1.length - 1))))

/-- One failing scan step. -/
theorem scanFor_cons_none {α : Type} (tryAt : List Char → Option α)
    (c : Char) (cs : List Char) (h : tryAt (c :: cs) = none) :
    scanFor tryAt (c :: cs) = scanFor tryAt cs := by
  simp [scanFor, h]

/-- One succeeding scan step. -/
theorem scanFor_cons_some {α : Type} (tryAt : List Char → Option α)
    (c : Char) (cs : List Char) (r : α) (h : tryAt (c :: cs) = some r) :
    scanFor tryAt (c :: cs) = some r := by
  simp [scanFor, h]

/-- The scan passes over a region at every position of which the matcher
fails. -/
theorem scanFor_append_skip {α : Type} (tryAt : List Char → Option α)
    (l1 l2 : List Char)
    (h : ∀ n, n < l1.length → tryAt (l1.drop n ++ l2) = none) :
    scanFor tryAt (l1 ++ l2) = scanFor tryAt l2 := by
  induction l1 with
  | nil => simp
  | cons c cs ih =>
      rw [List.cons_append,
        scanFor_cons_none _ _ _ (by simpa using h 0 (by simp))]
      exact ih (fun n hn => by simpa using h (n + 1) (by simpa using hn))

-- ---------------------------------------------------------------------------
-- Deviation-scan lemmas
-- ---------------------------------------------------------------------------

/-- The characters of `higherPat`. -/
theorem higherPat_chars : higherPat = ['h', 'i', 'g', 'h', 'e', 'r', ' '] := by
  decide

/-- The characters of `lowerPat`. -/
theorem lowerPat_chars : lowerPat = ['l', 'o', 'w', 'e', 'r', ' '] := by
  decide

/-- The characters of `byPat`. -/
theorem byPat_chars : byPat = [' ', 'b', 'y', ' '] := by decide

/-- Dropping a passing block never lengthens a list. -/
theorem dropWhile_length_le (p : Char → Bool) (l : List Char) :
    (l.dropWhile p).length ≤ l.length := by
  induction l with
  | nil => simp
  | cons a as ih =>
      rw [List.dropWhile_cons]
      split
      · exact le_trans ih (by simp)
      · simp

/-- A successful direction strip consumes at least six characters. -/
theorem stripDir_length {s : List Char} {dir : Direction} {s1 : List Char}
    (h : stripDir s = some (dir, s1)) : s1.length + 6 ≤ s.length := by
  rw [stripDir] at h
  split at h
  next hcond =>
    simp only [Option.some.injEq, Prod.mk.injEq] at h
    obtain ⟨-, rfl⟩ := h
    have hle := length_le_of_leadsWith _ _ hcond
    rw [higherPat_chars] at hle
    simp only [List.length_drop]
    simp at hle
    omega
  split at h
  next hcond =>
    simp only [Option.some.injEq, Prod.mk.injEq] at h
    obtain ⟨-, rfl⟩ := h
    have hle := length_le_of_leadsWith _ _ hcond
    rw [lowerPat_chars] at hle
    simp only [List.length_drop]
    simp at hle
    omega
  next => exact absurd h (by simp)

/-- A successful deviation match consumes at least one character. -/
theorem tryDevAt_rest_lt {s : List Char} {d : Deviation} {r : List Char}
    (h : tryDevAt s = some (d, r)) : r.length < s.length := by
  rw [tryDevAt] at h
  split at h
  next => exact absurd h (by simp)
  next dir s1 heq =>
    have hs1 : s1.length + 6 ≤ s.length := stripDir_length heq
    dsimp only at h
    split at h
    · exact absurd h (by simp)
    split at h
    case isFalse => exact absurd h (by simp)
    split at h
    · exact absurd h (by simp)
    split at h
    case h_1 => exact absurd h (by simp)
    case h_2 c s5 heq4 =>
      split at h
      case isFalse => exact absurd h (by simp)
      split at h
      · exact absurd h (by simp)
      · simp only [Option.some.injEq, Prod.mk.injEq] at h
        obtain ⟨-, rfl⟩ := h
        have h5 : (List.dropWhile isWordChar s5).length ≤ s5.length :=
          dropWhile_length_le _ _
        have h4 : s5.length + 1 =
            (List.dropWhile isDigitDot
              ((List.dropWhile isWordChar s1).drop 4)).length := by
          rw [heq4]; rfl
        have h3 : (List.dropWhile isDigitDot
            ((List.dropWhile isWordChar s1).drop 4)).length ≤
            ((List.dropWhile isWordChar s1).drop 4).length :=
          dropWhile_length_le _ _
        have h2 : ((List.dropWhile isWordChar s1).drop 4).length ≤ s1.length := by
          have := dropWhile_length_le isWordChar s1
          simp only [List.length_drop]
          omega
        omega

/-- Fuel beyond the string length does not change the scan. -/
theorem devScanF_fuel : ∀ (f1 f2 : ℕ) (s : List Char),
    s.length ≤ f1 → s.length ≤ f2 → devScanF f1 s = devScanF f2 s := by
  intro f1
  induction f1 with
  | zero =>
      intro f2 s h1 _
      have : s = [] := List.length_eq_zero.mp (Nat.le_zero.mp h1)
      subst this
      cases f2 <;> rfl
  | succ f ih =>
      intro f2 s h1 h2
      cases s with
      | nil => cases f2 <;> rfl
      | cons c cs =>
          cases f2 with
          | zero => simp at h2
          | succ g =>
              cases htry : tryDevAt (c :: cs) with
              | none =>
                  simp only [devScanF, htry]
                  simp only [List.length_cons] at h1 h2
                  exact ih g cs (by omega) (by omega)
              | some dr =>
                  obtain ⟨d, r⟩ := dr
                  have hr := tryDevAt_rest_lt htry
                  simp only [devScanF, htry]
                  simp only [List.length_cons] at h1 h2 hr
                  rw [ih g r (by omega) (by omega)]

/-- The scan of the empty string. -/
theorem devScan_nil : devScan [] = [] := rfl

/-- One failing deviation-scan step. -/
theorem devScan_cons_none {c : Char} {cs : List Char}
    (h : tryDevAt (c :: cs) = none) : devScan (c :: cs) = devScan cs := by
  unfold devScan
  simp only [List.length_cons, devScanF, h]

/-- One succeeding deviation-scan step: emit the match and resume after
it. -/
theorem devScan_cons_some {c : Char} {cs : List Char} {d : Deviation}
    {r : List Char} (h : tryDevAt (c :: cs) = some (d, r)) :
    devScan (c :: cs) = d :: devScan r := by
  unfold devScan
  simp only [List.length_cons, devScanF, h]
  have := tryDevAt_rest_lt h
  simp only [List.length_cons] at this
  rw [devScanF_fuel cs.length r.length r (by omega) le_rfl]

/-- The deviation scan passes over a region at every position of which
the matcher fails. -/
theorem devScan_append_skip (l1 l2 : List Char)
    (h : ∀ n, n < l1.length → tryDevAt (l1.drop n ++ l2) = none) :
    devScan (l1 ++ l2) = devScan l2 := by
  induction l1 with
  | nil => simp
  | cons c cs ih =>
      rw [List.cons_append, devScan_cons_none (by simpa using h 0 (by simp))]
      exact ih (fun n hn => by simpa using h (n + 1) (by simpa using hn))

/-- No deviation match can start at a character other than `h` or `l`. -/
theorem tryDevAt_none_of_head (c : Char) (cs : List Char)
    (h1 : c ≠ 'h') (h2 : c ≠ 'l') : tryDevAt (c :: cs) = none := by
  rw [tryDevAt, stripDir, higherPat_chars, lowerPat_chars]
  rw [leadsWith, if_neg (Ne.symm h1), leadsWith, if_neg (Ne.symm h2)]
  simp

/-- The characters of `moodPat`. -/
theorem moodPat_chars :
    moodPat = ['d', 'o', 'm', 'i', 'n', 'a', 'n', 't', ' ', 'm', 'o', 'o',
      'd', ' ', '\''] := by decide

/-- The characters of `distPat`. -/
theorem distPat_chars :
    distPat = ['d', 'i', 's', 't', 'a', 'n', 'c', 'e', '_', 's', 'c', 'o',
      'r', 'e', '='] := by decide

/-- The characters of `dirWord .higher`. -/
theorem dirWord_higher : dirWord .higher = ['h', 'i', 'g', 'h', 'e', 'r'] := by
  decide

/-- The characters of `dirWord .lower`. -/
theorem dirWord_lower : dirWord .lower = ['l', 'o', 'w', 'e', 'r'] := by
  decide

/-- A label character is not a quote, an equals sign or a space. -/
theorem labelChar_ne (c : Char) (h : labelChar c = true) :
    c ≠ '\'' ∧ c ≠ '=' ∧ c ≠ ' ' := by
  refine ⟨?_, ?_, ?_⟩ <;> intro hc <;> subst hc <;> exact absurd h (by decide)

/-- An all-true predicate restricts to any drop. -/
theorem all_drop (p : Char → Bool) (l : List Char) (n : ℕ)
    (h : l.all p = true) : (l.drop n).all p = true := by
  rw [List.all_eq_true] at h ⊢
  exact fun c hc => h c ((List.drop_sublist n l).subset hc)

/-- A successful deviation match step, for any input shape. -/
theorem devScan_eq_of_tryDevAt {s : List Char} {d : Deviation}
    {r : List Char} (h : tryDevAt s = some (d, r)) :
    devScan s = d :: devScan r := by
  cases s with
  | nil =>
      have hnone : tryDevAt ([] : List Char) = none := by decide
      rw [hnone] at h
      exact absurd h (by simp)
  | cons c cs => exact devScan_cons_some h

/-- No deviation match can start inside a label block followed by a
quote. -/
theorem tryDevAt_none_label (l1 l2 : List Char) (h : l1.all labelChar = true) :
    tryDevAt (l1 ++ '\'' :: l2) = none := by
  have h1 : leadsWith higherPat (l1 ++ '\'' :: l2) = false :=
    leadsWith_straddle_false _ _ _ _ labelChar h ⟨' ', by decide, by decide⟩
      (by decide)
  have h2 : leadsWith lowerPat (l1 ++ '\'' :: l2) = false :=
    leadsWith_straddle_false _ _ _ _ labelChar h ⟨' ', by decide, by decide⟩
      (by decide)
  rw [tryDevAt, stripDir]
  simp [h1, h2]

/-- The deviation scan passes over a label block. -/
theorem devScan_skip_label (label l2 : List Char)
    (h : label.all labelChar = true) :
    devScan (label ++ '\'' :: l2) = devScan ('\'' :: l2) := by
  apply devScan_append_skip
  intro n _
  exact tryDevAt_none_label _ _ (all_drop _ _ _ h)

/-- The deviation scan passes over any `[0-9.]` block. -/
theorem devScan_skip_digitdot (s rest : List Char)
    (hs : s.all isDigitDot = true) :
    devScan (s ++ rest) = devScan rest := by
  apply devScan_append_skip
  intro n hn
  have hne : s.drop n ≠ [] := by
    intro hnil
    have := congrArg List.length hnil
    simp at this
    omega
  obtain ⟨c, cs', hc⟩ := List.exists_cons_of_ne_nil hne
  have hcmem : c ∈ s :=
    (List.drop_sublist n s).subset (hc ▸ List.mem_cons_self c cs')
  have hcd : isDigitDot c = true := List.all_eq_true.mp hs c hcmem
  rw [hc, List.cons_append]
  apply tryDevAt_none_of_head
  · intro hch; subst hch; exact absurd hcd (by decide)
  · intro hch; subst hch; exact absurd hcd (by decide)

/-- The distance matcher fails inside a label block followed by a
quote. -/
theorem matchDistAt_none_label (l1 l2 : List Char)
    (h : l1.all labelChar = true) :
    matchDistAt (l1 ++ '\'' :: l2) = none := by
  have h1 : leadsWith distPat (l1 ++ '\'' :: l2) = false :=
    leadsWith_straddle_false _ _ _ _ labelChar h ⟨'=', by decide, by decide⟩
      (by decide)
  rw [matchDistAt]
  simp [h1]

/-- Splitting `higher ` as a block plus a space forces the block. -/
theorem append_space_eq_higher (w z : List Char)
    (h : w ++ ' ' :: z = ['h', 'i', 'g', 'h', 'e', 'r', ' ']) :
    w = ['h', 'i', 'g', 'h', 'e', 'r'] := by
  rcases w with _ | ⟨a, _ | ⟨b, _ | ⟨c, _ | ⟨d, _ | ⟨e, _ | ⟨f, _ | ⟨g, w⟩⟩⟩⟩⟩⟩⟩ <;>
    simp_all

/-- Splitting `lower ` as a block plus a space forces the block. -/
theorem append_space_eq_lower (w z : List Char)
    (h : w ++ ' ' :: z = ['l', 'o', 'w', 'e', 'r', ' ']) :
    w = ['l', 'o', 'w', 'e', 'r'] := by
  rcases w with _ | ⟨a, _ | ⟨b, _ | ⟨c, _ | ⟨d, _ | ⟨e, _ | ⟨f, w⟩⟩⟩⟩⟩⟩ <;>
    simp_all

/-- If `higher ` matches at a word block followed by a space, the block is
the word `higher` itself. -/
theorem leadsWith_higher_word (w Y : List Char) (hw : w.all isWordChar = true)
    (h : leadsWith higherPat (w ++ ' ' :: Y) = true) :
    w = ['h', 'i', 'g', 'h', 'e', 'r'] := by
  rw [leadsWith_iff_take, higherPat_chars] at h
  rw [show (['h', 'i', 'g', 'h', 'e', 'r', ' '] : List Char).length = 7
    from rfl] at h
  rw [List.take_append_eq_append_take] at h
  by_cases hle : 7 ≤ w.length
  · exfalso
    rw [Nat.sub_eq_zero_of_le hle] at h
    simp only [List.take_nil, List.take_zero, List.append_nil] at h
    have hsp : ' ' ∈ w.take 7 := by rw [h]; decide
    have hspw : ' ' ∈ w := List.mem_of_mem_take hsp
    have := List.all_eq_true.mp hw ' ' hspw
    exact absurd this (by decide)
  · push_neg at hle
    rw [List.take_of_length_le (by omega : w.length ≤ 7)] at h
    rw [show 7 - w.length = (7 - w.length - 1) + 1 by omega,
      List.take_succ_cons] at h
    exact append_space_eq_higher _ _ h

/-- If `lower ` matches at a word block followed by a space, the block is
the word `lower` itself. -/
theorem leadsWith_lower_word (w Y : List Char) (hw : w.all isWordChar = true)
    (h : leadsWith lowerPat (w ++ ' ' :: Y) = true) :
    w = ['l', 'o', 'w', 'e', 'r'] := by
  rw [leadsWith_iff_take, lowerPat_chars] at h
  rw [show (['l', 'o', 'w', 'e', 'r', ' '] : List Char).length = 6
    from rfl] at h
  rw [List.take_append_eq_append_take] at h
  by_cases hle : 6 ≤ w.length
  · exfalso
    rw [Nat.sub_eq_zero_of_le hle] at h
    simp only [List.take_nil, List.take_zero, List.append_nil] at h
    have hsp : ' ' ∈ w.take 6 := by rw [h]; decide
    have hspw : ' ' ∈ w := List.mem_of_mem_take hsp
    have := List.all_eq_true.mp hw ' ' hspw
    exact absurd this (by decide)
  · push_neg at hle
    rw [List.take_of_length_le (by omega : w.length ≤ 6)] at h
    rw [show 6 - w.length = (6 - w.length - 1) + 1 by omega,
      List.take_succ_cons] at h
    exact append_space_eq_lower _ _ h

/-- No deviation match can start inside the dimension word of a clause:
even when the dimension ends in `higher`/`lower`, the ` by ` literal then
meets the magnitude's first digit and fails. -/
theorem tryDevAt_wordThenBy (w mag tail2 : List Char)
    (hw1 : w ≠ []) (hw2 : w.all isWordChar = true)
    (hm1 : mag ≠ []) (hm2 : mag.all isDigitDot = true) :
    tryDevAt (w ++ ' ' :: 'b' :: 'y' :: ' ' :: (mag ++ tail2)) = none := by
  obtain ⟨m, ms, rfl⟩ := List.exists_cons_of_ne_nil hm1
  have hmd : isDigitDot m = true := List.all_eq_true.mp hm2 m (by simp)
  have hmb : ¬ ('b' = m) := by
    intro hbm
    rw [← hbm] at hmd
    exact absurd hmd (by decide)
  have hwb : isWordChar 'b' = true := by decide
  have hwy : isWordChar 'y' = true := by decide
  have hwsp : isWordChar ' ' = false := by decide
  rw [tryDevAt, stripDir]
  by_cases hhi : leadsWith higherPat
      (w ++ ' ' :: 'b' :: 'y' :: ' ' :: (m :: ms ++ tail2)) = true
  · have hw6 := leadsWith_higher_word _ _ hw2 hhi
    subst hw6
    rw [if_pos hhi]
    dsimp only
    rw [show ((['h', 'i', 'g', 'h', 'e', 'r'] : List Char) ++
        ' ' :: 'b' :: 'y' :: ' ' :: (m :: ms ++ tail2)).drop 7 =
        'b' :: 'y' :: ' ' :: (m :: ms ++ tail2) from rfl]
    simp only [List.takeWhile_cons, List.dropWhile_cons, hwb, hwy, hwsp,
      if_true, if_false, List.takeWhile_nil, List.dropWhile_nil]
    rw [if_neg (by simp)]
    rw [if_neg (by simp [byPat_chars, leadsWith, hmb])]
  · rw [if_neg hhi]
    by_cases hlo : leadsWith lowerPat
        (w ++ ' ' :: 'b' :: 'y' :: ' ' :: (m :: ms ++ tail2)) = true
    · have hw5 := leadsWith_lower_word _ _ hw2 hlo
      subst hw5
      rw [if_pos hlo]
      dsimp only
      rw [show ((['l', 'o', 'w', 'e', 'r'] : List Char) ++
          ' ' :: 'b' :: 'y' :: ' ' :: (m :: ms ++ tail2)).drop 6 =
          'b' :: 'y' :: ' ' :: (m :: ms ++ tail2) from rfl]
      simp only [List.takeWhile_cons, List.dropWhile_cons, hwb, hwy, hwsp,
        if_true, if_false, List.takeWhile_nil, List.dropWhile_nil]
      rw [if_neg (by simp)]
      rw [if_neg (by simp [byPat_chars, leadsWith, hmb])]
    · rw [if_neg hlo]

/-- The deviation scan passes over a dimension word followed by ` by `
and a magnitude. -/
theorem devScan_skip_word (w mag tail2 : List Char)
    (hw2 : w.all isWordChar = true)
    (hm1 : mag ≠ []) (hm2 : mag.all isDigitDot = true) :
    devScan (w ++ ' ' :: 'b' :: 'y' :: ' ' :: (mag ++ tail2)) =
      devScan (' ' :: 'b' :: 'y' :: ' ' :: (mag ++ tail2)) := by
  apply devScan_append_skip
  intro n hn
  apply tryDevAt_wordThenBy
  · intro hnil
    have := congrArg List.length hnil
    simp at this
    omega
  · exact all_drop _ _ _ hw2
  · exact hm1
  · exact hm2

/-- Evaluation facts for the scanner character classes. -/
theorem isWordChar_space : isWordChar ' ' = false := by decide

/-- `;` is not a word character. -/
theorem isWordChar_semi : isWordChar ';' = false := by decide

/-- A space is not a `[0-9.]` character. -/
theorem isDigitDot_space : isDigitDot ' ' = false := by decide

/-- `;` is not a `[0-9.]` character. -/
theorem isDigitDot_semi : isDigitDot ';' = false := by decide

/-- The deviation matcher at the start of a clause with a unit: it
matches the whole clause, capturing dimension, direction and
`<magnitude> <unit>`, and resumes right after the clause. -/
theorem tryDevAt_clause (dir : Direction) (dim mag unit tail : List Char)
    (hd1 : dim ≠ []) (hd2 : dim.all isWordChar = true)
    (hm1 : mag ≠ []) (hm2 : mag.all isDigitDot = true)
    (hu1 : unit ≠ []) (hu2 : unit.all isWordChar = true)
    (htail : tail = [] ∨ ∃ t, tail = ';' :: t) :
    tryDevAt (renderClause dir dim mag unit ++ tail) =
      some (⟨dim, dir, mag ++ ' ' :: unit⟩, tail) := by
  have hunit_take : (unit ++ tail).takeWhile isWordChar = unit := by
    rcases htail with rfl | ⟨t, rfl⟩
    · simp [takeWhile_all _ _ hu2]
    · rw [takeWhile_append_all _ _ _ hu2]
      simp [List.takeWhile_cons, isWordChar_semi]
  have hunit_drop : (unit ++ tail).dropWhile isWordChar = tail := by
    rcases htail with rfl | ⟨t, rfl⟩
    · simp [dropWhile_all _ _ hu2]
    · rw [dropWhile_append_all _ _ _ hu2]
      simp [List.dropWhile_cons, isWordChar_semi]
  rw [show renderClause dir dim mag unit ++ tail =
      (dirWord dir ++ [' ']) ++
        (dim ++ (byPat ++ (mag ++ (' ' :: (unit ++ tail))))) by
    rw [renderClause, if_neg hu1]
    simp [List.append_assoc]]
  have core : ∀ dir2 : Direction,
      (if dim ++ List.takeWhile isWordChar
          (byPat ++ (mag ++ ' ' :: (unit ++ tail))) = [] then
          (none : Option (Deviation × List Char))
        else if leadsWith byPat (List.dropWhile isWordChar
            (byPat ++ (mag ++ ' ' :: (unit ++ tail)))) = true then
          if List.takeWhile isDigitDot ((List.dropWhile isWordChar
              (byPat ++ (mag ++ ' ' :: (unit ++ tail)))).drop 4) = [] then
            none
          else
            match (List.dropWhile isWordChar
                (byPat ++ (mag ++ ' ' :: (unit ++ tail)))).drop 4
                  |>.dropWhile isDigitDot with
            | [] => none
            | c :: s5 =>
              if c = ' ' then
                if List.takeWhile isWordChar s5 = [] then none
                else some
                  ({ feature := dim ++ List.takeWhile isWordChar
                      (byPat ++ (mag ++ ' ' :: (unit ++ tail))),
                     direction := dir2,
                     amount := List.takeWhile isDigitDot
                        ((List.dropWhile isWordChar
                          (byPat ++ (mag ++ ' ' :: (unit ++ tail)))).drop 4)
                        ++ ' ' :: List.takeWhile isWordChar s5 },
                    List.dropWhile isWordChar s5)
              else none
        else none) =
      some (⟨dim, dir2, mag ++ ' ' :: unit⟩, tail) := by
    intro dir2
    rw [byPat_chars]
    have e1 : List.takeWhile isWordChar
        (([' ', 'b', 'y', ' '] : List Char) ++ (mag ++ ' ' :: (unit ++ tail))) = [] := by
      simp [List.takeWhile_cons, isWordChar_space]
    have e2 : List.dropWhile isWordChar
        (([' ', 'b', 'y', ' '] : List Char) ++ (mag ++ ' ' :: (unit ++ tail))) =
        ' ' :: 'b' :: 'y' :: ' ' :: (mag ++ ' ' :: (unit ++ tail)) := by
      simp [List.dropWhile_cons, isWordChar_space]
    rw [e1, e2, List.append_nil]
    rw [if_neg hd1]
    rw [if_pos (show leadsWith [' ', 'b', 'y', ' ']
        (' ' :: 'b' :: 'y' :: ' ' :: (mag ++ ' ' :: (unit ++ tail))) = true
      from leadsWith_self_append [' ', 'b', 'y', ' '] _)]
    rw [show List.drop 4 (' ' :: 'b' :: 'y' :: ' ' ::
        (mag ++ ' ' :: (unit ++ tail))) = mag ++ ' ' :: (unit ++ tail)
      from rfl]
    rw [takeWhile_append_all _ _ _ hm2, dropWhile_append_all _ _ _ hm2]
    have e3 : List.takeWhile isDigitDot (' ' :: (unit ++ tail)) = [] := by
      simp [List.takeWhile_cons, isDigitDot_space]
    have e4 : List.dropWhile isDigitDot (' ' :: (unit ++ tail)) =
        ' ' :: (unit ++ tail) := by
      simp [List.dropWhile_cons, isDigitDot_space]
    rw [e3, e4, List.append_nil]
    rw [if_neg hm1]
    dsimp only
    rw [if_pos rfl]
    rw [hunit_take, hunit_drop]
    rw [if_neg hu1]
  cases dir
  case higher =>
    rw [tryDevAt, stripDir]
    rw [show dirWord Direction.higher ++ [' '] = higherPat by decide]
    rw [if_pos (leadsWith_self_append _ _)]
    dsimp only
    rw [show (7 : ℕ) = higherPat.length from by decide, List.drop_left]
    rw [takeWhile_append_all _ _ _ hd2, dropWhile_append_all _ _ _ hd2]
    exact core Direction.higher
  case lower =>
    rw [tryDevAt, stripDir]
    rw [if_neg (show ¬ leadsWith higherPat ((dirWord Direction.lower ++ [' ']) ++
        (dim ++ (byPat ++ (mag ++ (' ' :: (unit ++ tail)))))) = true by
      simp [leadsWith, higherPat_chars, dirWord_lower])]
    rw [show dirWord Direction.lower ++ [' '] = lowerPat by decide]
    rw [if_pos (leadsWith_self_append _ _)]
    dsimp only
    rw [show (6 : ℕ) = lowerPat.length from by decide, List.drop_left]
    rw [takeWhile_append_all _ _ _ hd2, dropWhile_append_all _ _ _ hd2]
    exact core Direction.lower

/-- The deviation matcher at the start of a clause without a unit word
(percentage-style): after the magnitude the pattern demands a space and a
unit, but the clause ends (or a `;` follows), so the whole attempt
fails. -/
theorem tryDevAt_unitless (dir : Direction) (dim mag tail : List Char)
    (hd1 : dim ≠ []) (hd2 : dim.all isWordChar = true)
    (hm1 : mag ≠ []) (hm2 : mag.all isDigitDot = true)
    (htail : tail = [] ∨ ∃ t, tail = ';' :: t) :
    tryDevAt (renderClause dir dim mag [] ++ tail) = none := by
  have hmag_take : (mag ++ tail).takeWhile isDigitDot = mag := by
    rcases htail with rfl | ⟨t, rfl⟩
    · simp [takeWhile_all _ _ hm2]
    · rw [takeWhile_append_all _ _ _ hm2]
      simp [List.takeWhile_cons, isDigitDot_semi]
  have hmag_drop : (mag ++ tail).dropWhile isDigitDot = tail := by
    rcases htail with rfl | ⟨t, rfl⟩
    · simp [dropWhile_all _ _ hm2]
    · rw [dropWhile_append_all _ _ _ hm2]
      simp [List.dropWhile_cons, isDigitDot_semi]
  rw [show renderClause dir dim mag [] ++ tail =
      (dirWord dir ++ [' ']) ++ (dim ++ (byPat ++ (mag ++ tail))) by
    rw [renderClause, if_pos rfl]
    simp [List.append_assoc]]
  have core : ∀ dir2 : Direction,
      (if dim ++ List.takeWhile isWordChar
          (byPat ++ (mag ++ tail)) = [] then
          (none : Option (Deviation × List Char))
        else if leadsWith byPat (List.dropWhile isWordChar
            (byPat ++ (mag ++ tail))) = true then
          if List.takeWhile isDigitDot ((List.dropWhile isWordChar
              (byPat ++ (mag ++ tail))).drop 4) = [] then
            none
          else
            match (List.dropWhile isWordChar
                (byPat ++ (mag ++ tail))).drop 4
                  |>.dropWhile isDigitDot with
            | [] => none
            | c :: s5 =>
              if c = ' ' then
                if List.takeWhile isWordChar s5 = [] then none
                else some
                  ({ feature := dim ++ List.takeWhile isWordChar
                      (byPat ++ (mag ++ tail)),
                     direction := dir2,
                     amount := List.takeWhile isDigitDot
                        ((List.dropWhile isWordChar
                          (byPat ++ (mag ++ tail))).drop 4)
                        ++ ' ' :: List.takeWhile isWordChar s5 },
                    List.dropWhile isWordChar s5)
              else none
        else none) = none := by
    intro dir2
    rw [byPat_chars]
    have e1 : List.takeWhile isWordChar
        (([' ', 'b', 'y', ' '] : List Char) ++ (mag ++ tail)) = [] := by
      simp [List.takeWhile_cons, isWordChar_space]
    have e2 : List.dropWhile isWordChar
        (([' ', 'b', 'y', ' '] : List Char) ++ (mag ++ tail)) =
        ' ' :: 'b' :: 'y' :: ' ' :: (mag ++ tail) := by
      simp [List.dropWhile_cons, isWordChar_space]
    rw [e1, e2, List.append_nil]
    rw [if_neg hd1]
    rw [if_pos (show leadsWith [' ', 'b', 'y', ' ']
        (' ' :: 'b' :: 'y' :: ' ' :: (mag ++ tail)) = true
      from leadsWith_self_append [' ', 'b', 'y', ' '] _)]
    rw [show List.drop 4 (' ' :: 'b' :: 'y' :: ' ' :: (mag ++ tail)) =
        mag ++ tail from rfl]
    rw [hmag_take, hmag_drop]
    rw [if_neg hm1]
    rcases htail with rfl | ⟨t, rfl⟩
    · rfl
    · dsimp only
      rw [if_neg (by decide)]
  cases dir
  case higher =>
    rw [tryDevAt, stripDir]
    rw [show dirWord Direction.higher ++ [' '] = higherPat by decide]
    rw [if_pos (leadsWith_self_append _ _)]
    dsimp only
    rw [show (7 : ℕ) = higherPat.length from by decide, List.drop_left]
    rw [takeWhile_append_all _ _ _ hd2, dropWhile_append_all _ _ _ hd2]
    exact core Direction.higher
  case lower =>
    rw [tryDevAt, stripDir]
    rw [if_neg (show ¬ leadsWith higherPat ((dirWord Direction.lower ++ [' ']) ++
        (dim ++ (byPat ++ (mag ++ tail)))) = true by
      simp [leadsWith, higherPat_chars, dirWord_lower])]
    rw [show dirWord Direction.lower ++ [' '] = lowerPat by decide]
    rw [if_pos (leadsWith_self_append _ _)]
    dsimp only
    rw [show (6 : ℕ) = lowerPat.length from by decide, List.drop_left]
    rw [takeWhile_append_all _ _ _ hd2, dropWhile_append_all _ _ _ hd2]
    exact core Direction.lower

/-- The deviation scan passes over a whole unit-less clause: no match
starts at the clause head or anywhere inside it. -/
theorem devScan_skip_unitless (dir : Direction) (dim mag tail : List Char)
    (hd1 : dim ≠ []) (hd2 : dim.all isWordChar = true)
    (hm1 : mag ≠ []) (hm2 : mag.all isDigitDot = true)
    (htail : tail = [] ∨ ∃ t, tail = ';' :: t) :
    devScan (renderClause dir dim mag [] ++ tail) = devScan tail := by
  have h0 : tryDevAt (renderClause dir dim mag [] ++ tail) = none :=
    tryDevAt_unitless dir dim mag tail hd1 hd2 hm1 hm2 htail
  cases dir
  case higher =>
    have hshape : renderClause Direction.higher dim mag [] ++ tail =
        'h' :: 'i' :: 'g' :: 'h' :: 'e' :: 'r' :: ' ' ::
          (dim ++ ' ' :: 'b' :: 'y' :: ' ' :: (mag ++ tail)) := by
      rw [renderClause, if_pos rfl]
      simp [dirWord_higher, byPat_chars]
    rw [hshape] at h0 ⊢
    rw [devScan_cons_none h0]
    rw [devScan_cons_none (by
      simp [tryDevAt, stripDir, leadsWith, higherPat_chars, lowerPat_chars])]
    rw [devScan_cons_none (by
      simp [tryDevAt, stripDir, leadsWith, higherPat_chars, lowerPat_chars])]
    rw [devScan_cons_none (by
      simp [tryDevAt, stripDir, leadsWith, higherPat_chars, lowerPat_chars])]
    rw [devScan_cons_none (by
      simp [tryDevAt, stripDir, leadsWith, higherPat_chars, lowerPat_chars])]
    rw [devScan_cons_none (by
      simp [tryDevAt, stripDir, leadsWith, higherPat_chars, lowerPat_chars])]
    rw [devScan_cons_none (by
      simp [tryDevAt, stripDir, leadsWith, higherPat_chars, lowerPat_chars])]
    rw [devScan_skip_word dim mag tail hd2 hm1 hm2]
    rw [devScan_cons_none (by
      simp [tryDevAt, stripDir, leadsWith, higherPat_chars, lowerPat_chars])]
    rw [devScan_cons_none (by
      simp [tryDevAt, stripDir, leadsWith, higherPat_chars, lowerPat_chars])]
    rw [devScan_cons_none (by
      simp [tryDevAt, stripDir, leadsWith, higherPat_chars, lowerPat_chars])]
    rw [devScan_cons_none (by
      simp [tryDevAt, stripDir, leadsWith, higherPat_chars, lowerPat_chars])]
    rw [devScan_skip_digitdot mag tail hm2]
  case lower =>
    have hshape : renderClause Direction.lower dim mag [] ++ tail =
        'l' :: 'o' :: 'w' :: 'e' :: 'r' :: ' ' ::
          (dim ++ ' ' :: 'b' :: 'y' :: ' ' :: (mag ++ tail)) := by
      rw [renderClause, if_pos rfl]
      simp [dirWord_lower, byPat_chars]
    rw [hshape] at h0 ⊢
    rw [devScan_cons_none h0]
    rw [devScan_cons_none (by
      simp [tryDevAt, stripDir, leadsWith, higherPat_chars, lowerPat_chars])]
    rw [devScan_cons_none (by
      simp [tryDevAt, stripDir, leadsWith, higherPat_chars, lowerPat_chars])]
    rw [devScan_cons_none (by
      simp [tryDevAt, stripDir, leadsWith, higherPat_chars, lowerPat_chars])]
    rw [devScan_cons_none (by
      simp [tryDevAt, stripDir, leadsWith, higherPat_chars, lowerPat_chars])]
    rw [devScan_cons_none (by
      simp [tryDevAt, stripDir, leadsWith, higherPat_chars, lowerPat_chars])]
    rw [devScan_skip_word dim mag tail hd2 hm1 hm2]
    rw [devScan_cons_none (by
      simp [tryDevAt, stripDir, leadsWith, higherPat_chars, lowerPat_chars])]
    rw [devScan_cons_none (by
      simp [tryDevAt, stripDir, leadsWith, higherPat_chars, lowerPat_chars])]
    rw [devScan_cons_none (by
      simp [tryDevAt, stripDir, leadsWith, higherPat_chars, lowerPat_chars])]
    rw [devScan_cons_none (by
      simp [tryDevAt, stripDir, leadsWith, higherPat_chars, lowerPat_chars])]
    rw [devScan_skip_digitdot mag tail hm2]

/-- The deviation scan of the joined clauses returns exactly the clauses
that carry a unit word, in order; unit-less (percentage-style) clauses
are passed over. -/
theorem devScan_joinClauses (clauses : List SpecClause)
    (h : ∀ q ∈ clauses, clauseOk q = true) :
    devScan (joinClauses clauses) =
      (clauses.filter (fun q => !q.unit.isEmpty)).map
        (fun q => ⟨q.dim, q.dir, q.mag ++ ' ' :: q.unit⟩) := by
  induction clauses with
  | nil => simp [joinClauses, devScan_nil]
  | cons q rest ih =>
      have hq := h q (List.mem_cons_self _ _)
      rw [clauseOk] at hq
      simp only [Bool.and_eq_true, Bool.not_eq_true',
        List.isEmpty_eq_false] at hq
      obtain ⟨⟨⟨⟨hd1, hd2⟩, hm1⟩, hm2⟩, hu⟩ := hq
      cases rest with
      | nil =>
          rw [show joinClauses [q] =
              renderClause q.dir q.dim q.mag q.unit from rfl]
          by_cases hu0 : q.unit = []
          · rw [show renderClause q.dir q.dim q.mag q.unit =
                renderClause q.dir q.dim q.mag q.unit ++ [] by simp]
            rw [hu0]
            rw [devScan_skip_unitless q.dir q.dim q.mag [] hd1 hd2 hm1 hm2
              (Or.inl rfl)]
            simp [hu0, devScan_nil]
          · rw [show renderClause q.dir q.dim q.mag q.unit =
                renderClause q.dir q.dim q.mag q.unit ++ [] by simp]
            rw [devScan_eq_of_tryDevAt
              (tryDevAt_clause q.dir q.dim q.mag q.unit [] hd1 hd2 hm1 hm2
                hu0 hu (Or.inl rfl))]
            simp [hu0, devScan_nil]
      | cons q2 rest2 =>
          rw [show joinClauses (q :: q2 :: rest2) =
              renderClause q.dir q.dim q.mag q.unit ++ ';' :: ' ' ::
                joinClauses (q2 :: rest2) from rfl]
          have hrest : ∀ p ∈ q2 :: rest2, clauseOk p = true :=
            fun p hp => h p (List.mem_cons_of_mem _ hp)
          by_cases hu0 : q.unit = []
          · rw [hu0]
            rw [devScan_skip_unitless q.dir q.dim q.mag _ hd1 hd2 hm1 hm2
              (Or.inr ⟨_, rfl⟩)]
            rw [devScan_cons_none
              (tryDevAt_none_of_head ';' _ (by decide) (by decide))]
            rw [devScan_cons_none
              (tryDevAt_none_of_head ' ' _ (by decide) (by decide))]
            rw [ih hrest]
            simp [hu0]
          · rw [devScan_eq_of_tryDevAt
              (tryDevAt_clause q.dir q.dim q.mag q.unit _ hd1 hd2 hm1 hm2
                hu0 hu (Or.inr ⟨_, rfl⟩))]
            rw [devScan_cons_none
              (tryDevAt_none_of_head ';' _ (by decide) (by decide))]
            rw [devScan_cons_none
              (tryDevAt_none_of_head ' ' _ (by decide) (by decide))]
            rw [ih hrest]
            simp [hu0]

/-- The characters of `"Anomalous vs "`. -/
theorem preAnom_chars :
    "Anomalous vs ".toList =
      ['A', 'n', 'o', 'm', 'a', 'l', 'o', 'u', 's', ' ', 'v', 's', ' '] := by
  decide

/-- The reason string split at its structural seams. -/
theorem mkReason_shape (label score : List Char) (clauses : List SpecClause) :
    mkReason label score clauses =
      "Anomalous vs ".toList ++ (moodPat ++ (label ++
        ('\'' :: '.' :: ' ' :: (distPat ++
          (score ++ '.' :: ' ' :: joinClauses clauses))))) := by
  rw [mkReason]
  rw [show "Anomalous vs dominant mood '".toList =
      "Anomalous vs ".toList ++ moodPat by decide]
  rw [show "'. distance_score=".toList = '\'' :: '.' :: ' ' :: distPat by
    decide]
  simp [List.append_assoc]

/-- A succeeding scan step, for any non-empty input shape. -/
theorem scanFor_eq_of_tryAt {α : Type} (tryAt : List Char → Option α)
    (s : List Char) (r : α) (h : tryAt s = some r) (hs : s ≠ []) :
    scanFor tryAt s = some r := by
  cases s with
  | nil => exact absurd rfl hs
  | cons c cs => exact scanFor_cons_some _ _ _ _ h

/-- The mood matcher fails at any character other than `d`. -/
theorem matchMoodAt_none_of_head (c : Char) (cs : List Char) (h : c ≠ 'd') :
    matchMoodAt (c :: cs) = none := by
  rw [matchMoodAt, if_neg (by simp [moodPat_chars, leadsWith, Ne.symm h])]

/-- The mood matcher at its match position captures exactly the label. -/
theorem matchMoodAt_at_match (label rest : List Char) (hl1 : label ≠ [])
    (hlq : label.all (fun c => c ≠ '\'') = true) :
    matchMoodAt (moodPat ++ (label ++ '\'' :: rest)) = some label := by
  rw [matchMoodAt, if_pos (leadsWith_self_append _ _), List.drop_left]
  dsimp only
  rw [takeWhile_append_all _ _ _ hlq, dropWhile_append_all _ _ _ hlq]
  simp [List.takeWhile_cons, List.dropWhile_cons, hl1]

/-- The distance matcher fails at any character other than `d`. -/
theorem matchDistAt_none_of_head (c : Char) (cs : List Char) (h : c ≠ 'd') :
    matchDistAt (c :: cs) = none := by
  rw [matchDistAt, if_neg (by simp [distPat_chars, leadsWith, Ne.symm h])]

/-- The distance matcher fails at a `d` not followed by `i`. -/
theorem matchDistAt_none_of_second (c : Char) (cs : List Char)
    (h : c ≠ 'i') : matchDistAt ('d' :: c :: cs) = none := by
  rw [matchDistAt, if_neg (by simp [distPat_chars, leadsWith, Ne.symm h])]

/-- The distance matcher at its match position: the greedy `[\d.]+` run
also swallows the period that closes the sentence. -/
theorem matchDistAt_at_match (score rest : List Char)
    (hs : score.all isDigitDot = true) :
    matchDistAt (distPat ++ (score ++ '.' :: ' ' :: rest)) =
      some (score ++ ['.']) := by
  rw [matchDistAt, if_pos (leadsWith_self_append _ _), List.drop_left]
  rw [takeWhile_append_all _ _ _ hs]
  simp [List.takeWhile_cons, isDigitDot_space,
    (by decide : isDigitDot '.' = true)]

/-- The first regex search: the mood pattern first matches at position
13 and captures the label. -/
theorem scanMood_mkReason (label score : List Char)
    (clauses : List SpecClause) (hl1 : label ≠ [])
    (hl2 : label.all labelChar = true) :
    scanFor matchMoodAt (mkReason label score clauses) = some label := by
  have hlq : label.all (fun c => c ≠ '\'') = true := by
    rw [List.all_eq_true] at hl2 ⊢
    intro c hc
    simpa using (labelChar_ne c (hl2 c hc)).1
  rw [mkReason_shape, preAnom_chars]
  simp only [List.cons_append, List.nil_append]
  rw [scanFor_cons_none _ _ _ (matchMoodAt_none_of_head _ _ (by decide))]
  rw [scanFor_cons_none _ _ _ (matchMoodAt_none_of_head _ _ (by decide))]
  rw [scanFor_cons_none _ _ _ (matchMoodAt_none_of_head _ _ (by decide))]
  rw [scanFor_cons_none _ _ _ (matchMoodAt_none_of_head _ _ (by decide))]
  rw [scanFor_cons_none _ _ _ (matchMoodAt_none_of_head _ _ (by decide))]
  rw [scanFor_cons_none _ _ _ (matchMoodAt_none_of_head _ _ (by decide))]
  rw [scanFor_cons_none _ _ _ (matchMoodAt_none_of_head _ _ (by decide))]
  rw [scanFor_cons_none _ _ _ (matchMoodAt_none_of_head _ _ (by decide))]
  rw [scanFor_cons_none _ _ _ (matchMoodAt_none_of_head _ _ (by decide))]
  rw [scanFor_cons_none _ _ _ (matchMoodAt_none_of_head _ _ (by decide))]
  rw [scanFor_cons_none _ _ _ (matchMoodAt_none_of_head _ _ (by decide))]
  rw [scanFor_cons_none _ _ _ (matchMoodAt_none_of_head _ _ (by decide))]
  rw [scanFor_cons_none _ _ _ (matchMoodAt_none_of_head _ _ (by decide))]
  exact scanFor_eq_of_tryAt _ _ _
    (matchMoodAt_at_match label _ hl1 hlq) (by simp [moodPat_chars])

/-- The second regex search: the distance pattern first matches right
after the label and captures the score digits plus the closing
period. -/
theorem scanDist_mkReason (label score : List Char)
    (clauses : List SpecClause) (hl2 : label.all labelChar = true)
    (hs : score.all isDigitDot = true) :
    scanFor matchDistAt (mkReason label score clauses) =
      some (score ++ ['.']) := by
  rw [mkReason_shape, preAnom_chars, moodPat_chars]
  simp only [List.cons_append, List.nil_append]
  rw [scanFor_cons_none _ _ _ (matchDistAt_none_of_head _ _ (by decide))]
  rw [scanFor_cons_none _ _ _ (matchDistAt_none_of_head _ _ (by decide))]
  rw [scanFor_cons_none _ _ _ (matchDistAt_none_of_head _ _ (by decide))]
  rw [scanFor_cons_none _ _ _ (matchDistAt_none_of_head _ _ (by decide))]
  rw [scanFor_cons_none _ _ _ (matchDistAt_none_of_head _ _ (by decide))]
  rw [scanFor_cons_none _ _ _ (matchDistAt_none_of_head _ _ (by decide))]
  rw [scanFor_cons_none _ _ _ (matchDistAt_none_of_head _ _ (by decide))]
  rw [scanFor_cons_none _ _ _ (matchDistAt_none_of_head _ _ (by decide))]
  rw [scanFor_cons_none _ _ _ (matchDistAt_none_of_head _ _ (by decide))]
  rw [scanFor_cons_none _ _ _ (matchDistAt_none_of_head _ _ (by decide))]
  rw [scanFor_cons_none _ _ _ (matchDistAt_none_of_head _ _ (by decide))]
  rw [scanFor_cons_none _ _ _ (matchDistAt_none_of_head _ _ (by decide))]
  rw [scanFor_cons_none _ _ _ (matchDistAt_none_of_head _ _ (by decide))]
  rw [scanFor_cons_none _ _ _ (matchDistAt_none_of_second _ _ (by decide))]
  rw [scanFor_cons_none _ _ _ (matchDistAt_none_of_head _ _ (by decide))]
  rw [scanFor_cons_none _ _ _ (matchDistAt_none_of_head _ _ (by decide))]
  rw [scanFor_cons_none _ _ _ (matchDistAt_none_of_head _ _ (by decide))]
  rw [scanFor_cons_none _ _ _ (matchDistAt_none_of_head _ _ (by decide))]
  rw [scanFor_cons_none _ _ _ (matchDistAt_none_of_head _ _ (by decide))]
  rw [scanFor_cons_none _ _ _ (matchDistAt_none_of_head _ _ (by decide))]
  rw [scanFor_cons_none _ _ _ (matchDistAt_none_of_head _ _ (by decide))]
  rw [scanFor_cons_none _ _ _ (matchDistAt_none_of_head _ _ (by decide))]
  rw [scanFor_cons_none _ _ _ (matchDistAt_none_of_head _ _ (by decide))]
  rw [scanFor_cons_none _ _ _ (matchDistAt_none_of_head _ _ (by decide))]
  rw [scanFor_cons_none _ _ _ (matchDistAt_none_of_head _ _ (by decide))]
  rw [scanFor_cons_none _ _ _ (matchDistAt_none_of_second _ _ (by decide))]
  rw [scanFor_cons_none _ _ _ (matchDistAt_none_of_head _ _ (by decide))]
  rw [scanFor_cons_none _ _ _ (matchDistAt_none_of_head _ _ (by decide))]
  rw [scanFor_append_skip matchDistAt label _
    (fun n _ => matchDistAt_none_label _ _ (all_drop _ _ _ hl2))]
  rw [scanFor_cons_none _ _ _ (matchDistAt_none_of_head _ _ (by decide))]
  rw [scanFor_cons_none _ _ _ (matchDistAt_none_of_head _ _ (by decide))]
  rw [scanFor_cons_none _ _ _ (matchDistAt_none_of_head _ _ (by decide))]
  exact scanFor_eq_of_tryAt _ _ _
    (matchDistAt_at_match score _ hs) (by simp [distPat_chars])

/-- The global deviation scan of the whole reason string: nothing
matches before the clauses, and the clauses contribute exactly their
unit-bearing deviations. -/
theorem devScan_mkReason (label score : List Char)
    (clauses : List SpecClause) (hl2 : label.all labelChar = true)
    (hs : score.all isDigitDot = true)
    (hcl : ∀ q ∈ clauses, clauseOk q = true) :
    devScan (mkReason label score clauses) =
      (clauses.filter (fun q => !q.unit.isEmpty)).map
        (fun q => ⟨q.dim, q.dir, q.mag ++ ' ' :: q.unit⟩) := by
  rw [mkReason_shape, preAnom_chars, moodPat_chars]
  simp only [List.cons_append, List.nil_append]
  rw [devScan_cons_none (by
    simp [tryDevAt, stripDir, leadsWith, higherPat_chars, lowerPat_chars])]
  rw [devScan_cons_none (by
    simp [tryDevAt, stripDir, leadsWith, higherPat_chars, lowerPat_chars])]
  rw [devScan_cons_none (by
    simp [tryDevAt, stripDir, leadsWith, higherPat_chars, lowerPat_chars])]
  rw [devScan_cons_none (by
    simp [tryDevAt, stripDir, leadsWith, higherPat_chars, lowerPat_chars])]
  rw [devScan_cons_none (by
    simp [tryDevAt, stripDir, leadsWith, higherPat_chars, lowerPat_chars])]
  rw [devScan_cons_none (by
    simp [tryDevAt, stripDir, leadsWith, higherPat_chars, lowerPat_chars])]
  rw [devScan_cons_none (by
    simp [tryDevAt, stripDir, leadsWith, higherPat_chars, lowerPat_chars])]
  rw [devScan_cons_none (by
    simp [tryDevAt, stripDir, leadsWith, higherPat_chars, lowerPat_chars])]
  rw [devScan_cons_none (by
    simp [tryDevAt, stripDir, leadsWith, higherPat_chars, lowerPat_chars])]
  rw [devScan_cons_none (by
    simp [tryDevAt, stripDir, leadsWith, higherPat_chars, lowerPat_chars])]
  rw [devScan_cons_none (by
    simp [tryDevAt, stripDir, leadsWith, higherPat_chars, lowerPat_chars])]
  rw [devScan_cons_none (by
    simp [tryDevAt, stripDir, leadsWith, higherPat_chars, lowerPat_chars])]
  rw [devScan_cons_none (by
    simp [tryDevAt, stripDir, leadsWith, higherPat_chars, lowerPat_chars])]
  rw [devScan_cons_none (by
    simp [tryDevAt, stripDir, leadsWith, higherPat_chars, lowerPat_chars])]
  rw [devScan_cons_none (by
    simp [tryDevAt, stripDir, leadsWith, higherPat_chars, lowerPat_chars])]
  rw [devScan_cons_none (by
    simp [tryDevAt, stripDir, leadsWith, higherPat_chars, lowerPat_chars])]
  rw [devScan_cons_none (by
    simp [tryDevAt, stripDir, leadsWith, higherPat_chars, lowerPat_chars])]
  rw [devScan_cons_none (by
    simp [tryDevAt, stripDir, leadsWith, higherPat_chars, lowerPat_chars])]
  rw [devScan_cons_none (by
    simp [tryDevAt, stripDir, leadsWith, higherPat_chars, lowerPat_chars])]
  rw [devScan_cons_none (by
    simp [tryDevAt, stripDir, leadsWith, higherPat_chars, lowerPat_chars])]
  rw [devScan_cons_none (by
    simp [tryDevAt, stripDir, leadsWith, higherPat_chars, lowerPat_chars])]
  rw [devScan_cons_none (by
    simp [tryDevAt, stripDir, leadsWith, higherPat_chars, lowerPat_chars])]
  rw [devScan_cons_none (by
    simp [tryDevAt, stripDir, leadsWith, higherPat_chars, lowerPat_chars])]
  rw [devScan_cons_none (by
    simp [tryDevAt, stripDir, leadsWith, higherPat_chars, lowerPat_chars])]
  rw [devScan_cons_none (by
    simp [tryDevAt, stripDir, leadsWith, higherPat_chars, lowerPat_chars])]
  rw [devScan_cons_none (by
    simp [tryDevAt, stripDir, leadsWith, higherPat_chars, lowerPat_chars])]
  rw [devScan_cons_none (by
    simp [tryDevAt, stripDir, leadsWith, higherPat_chars, lowerPat_chars])]
  rw [devScan_cons_none (by
    simp [tryDevAt, stripDir, leadsWith, higherPat_chars, lowerPat_chars])]
  rw [devScan_skip_label label _ hl2]
  rw [devScan_cons_none (by
    simp [tryDevAt, stripDir, leadsWith, higherPat_chars, lowerPat_chars])]
  rw [devScan_cons_none (by
    simp [tryDevAt, stripDir, leadsWith, higherPat_chars, lowerPat_chars])]
  rw [devScan_cons_none (by
    simp [tryDevAt, stripDir, leadsWith, higherPat_chars, lowerPat_chars])]
  rw [distPat_chars]
  simp only [List.cons_append, List.nil_append]
  rw [devScan_cons_none (by
    simp [tryDevAt, stripDir, leadsWith, higherPat_chars, lowerPat_chars])]
  rw [devScan_cons_none (by
    simp [tryDevAt, stripDir, leadsWith, higherPat_chars, lowerPat_chars])]
  rw [devScan_cons_none (by
    simp [tryDevAt, stripDir, leadsWith, higherPat_chars, lowerPat_chars])]
  rw [devScan_cons_none (by
    simp [tryDevAt, stripDir, leadsWith, higherPat_chars, lowerPat_chars])]
  rw [devScan_cons_none (by
    simp [tryDevAt, stripDir, leadsWith, higherPat_chars, lowerPat_chars])]
  rw [devScan_cons_none (by
    simp [tryDevAt, stripDir, leadsWith, higherPat_chars, lowerPat_chars])]
  rw [devScan_cons_none (by
    simp [tryDevAt, stripDir, leadsWith, higherPat_chars, lowerPat_chars])]
  rw [devScan_cons_none (by
    simp [tryDevAt, stripDir, leadsWith, higherPat_chars, lowerPat_chars])]
  rw [devScan_cons_none (by
    simp [tryDevAt, stripDir, leadsWith, higherPat_chars, lowerPat_chars])]
  rw [devScan_cons_none (by
    simp [tryDevAt, stripDir, leadsWith, higherPat_chars, lowerPat_chars])]
  rw [devScan_cons_none (by
    simp [tryDevAt, stripDir, leadsWith, higherPat_chars, lowerPat_chars])]
  rw [devScan_cons_none (by
    simp [tryDevAt, stripDir, leadsWith, higherPat_chars, lowerPat_chars])]
  rw [devScan_cons_none (by
    simp [tryDevAt, stripDir, leadsWith, higherPat_chars, lowerPat_chars])]
  rw [devScan_cons_none (by
    simp [tryDevAt, stripDir, leadsWith, higherPat_chars, lowerPat_chars])]
  rw [devScan_cons_none (by
    simp [tryDevAt, stripDir, leadsWith, higherPat_chars, lowerPat_chars])]
  rw [devScan_skip_digitdot score _ hs]
  rw [devScan_cons_none (by
    simp [tryDevAt, stripDir, leadsWith, higherPat_chars, lowerPat_chars])]
  rw [devScan_cons_none (by
    simp [tryDevAt, stripDir, leadsWith, higherPat_chars, lowerPat_chars])]
  exact devScan_joinClauses clauses hcl

/-- Appending one failing character moves it to the dropped part. -/
theorem takeWhile_append_single (p : Char → Bool) (l : List Char) (c : Char)
    (hc : p c = false) :
    (l ++ [c]).takeWhile p = l.takeWhile p ∧
    (l ++ [c]).dropWhile p = l.dropWhile p ++ [c] := by
  induction l with
  | nil => simp [List.takeWhile_cons, List.dropWhile_cons, hc]
  | cons a as ih =>
      by_cases ha : p a = true
      · simp [List.takeWhile_cons, List.dropWhile_cons, ha, ih]
      · simp [List.takeWhile_cons, List.dropWhile_cons, ha]

/-- `parseFloat` ignores a trailing period: the captured
`<score>.` parses to the same number as `<score>`. -/
theorem jsParseFloat_append_dot (s : List Char) :
    jsParseFloat (s ++ ['.']) = jsParseFloat s := by
  obtain ⟨e1, e2⟩ := takeWhile_append_single Char.isDigit s '.' (by decide)
  rw [jsParseFloat, jsParseFloat]
  dsimp only
  rw [e1, e2]
  cases hdw : s.dropWhile Char.isDigit with
  | nil =>
      simp only [List.nil_append]
      rw [if_pos trivial]
      by_cases hip : s.takeWhile Char.isDigit = []
      · simp [hip]
      · simp [hip, digitsToNat]
  | cons c cs =>
      simp only [List.cons_append]
      by_cases hc : c = '.'
      · subst hc
        rw [if_pos rfl, if_pos rfl]
        obtain ⟨e3, -⟩ := takeWhile_append_single Char.isDigit cs '.'
          (by decide)
        rw [e3]
      · rw [if_neg hc, if_neg hc]

-- ---------------------------------------------------------------------------
-- C1 — the reason-string grammar and parseAnomalyReason
-- ---------------------------------------------------------------------------

set_option maxRecDepth 40000 in
/-- C1 counterexample: on the grammar rendering of the placeholder's
"Many Men" reason — byte-identical to the string shipped in
`placeholderData.ts` — `parseAnomalyReason` returns only the two
unit-bearing clauses; the percentage-style clause
`higher energy by 0.12`, whose magnitude has no unit word after it,
is missing, so the deviations list does not contain all three clauses. -/
theorem parse_drops_unitless_clause :
    exampleReason =
      "Anomalous vs dominant mood 'high_energy_sad_fast'. distance_score=1.00. lower tempo by 65 BPM; higher loudness by 0.7 dB; higher energy by 0.12".toList ∧
    (parseAnomalyReason exampleReason).deviations =
      [{ feature := "tempo".toList, direction := .lower,
         amount := "65 BPM".toList },
       { feature := "loudness".toList, direction := .higher,
         amount := "0.7 dB".toList }] ∧
    ¬ (parseAnomalyReason exampleReason).deviations.length = 3 := by
  refine ⟨by decide, by decide, by decide⟩

/-- C1 (amended): for every reason string built by the spec grammar — a
non-empty label over the label alphabet, a `[0-9.]` score, and
well-formed clauses — the parser recovers the dominant mood label and the
numeric score, and its deviations list contains exactly the clauses whose
magnitude carries a unit word, in order; percentage-style clauses (no
unit word) are dropped, because the deviation regex requires
`[\d.]+ \w+`. -/
theorem parse_mkReason (label score : List Char) (clauses : List SpecClause)
    (hl1 : label ≠ []) (hl2 : label.all labelChar = true)
    (hs : score.all isDigitDot = true)
    (hcl : ∀ q ∈ clauses, clauseOk q = true) :
    (parseAnomalyReason (mkReason label score clauses)).dominantMood =
      label ∧
    (parseAnomalyReason (mkReason label score clauses)).distanceScore =
      jsParseFloat score ∧
    (parseAnomalyReason (mkReason label score clauses)).deviations =
      (clauses.filter (fun q => !q.unit.isEmpty)).map
        (fun q => ⟨q.dim, q.dir, q.mag ++ ' ' :: q.unit⟩) := by
  refine ⟨?_, ?_, ?_⟩
  · show (scanFor matchMoodAt (mkReason label score clauses)).getD [] = label
    rw [scanMood_mkReason label score clauses hl1 hl2]
    rfl
  · show (match scanFor matchDistAt (mkReason label score clauses) with
      | some cap => jsParseFloat cap
      | none => some 0) = jsParseFloat score
    rw [scanDist_mkReason label score clauses hl2 hs]
    show jsParseFloat (score ++ ['.']) = jsParseFloat score
    exact jsParseFloat_append_dot score
  · exact devScan_mkReason label score clauses hl2 hs hcl

/-- Witness for C1 at the "Many Men" grammar instance. -/
theorem parse_mkReason_witness :
    ("high_energy_sad_fast".toList ≠ [] ∧
      "high_energy_sad_fast".toList.all labelChar = true ∧
      "1.00".toList.all isDigitDot = true ∧
      (∀ q ∈ exampleClauses, clauseOk q = true)) ∧
    ((parseAnomalyReason (mkReason "high_energy_sad_fast".toList
        "1.00".toList exampleClauses)).dominantMood =
      "high_energy_sad_fast".toList ∧
     (parseAnomalyReason (mkReason "high_energy_sad_fast".toList
        "1.00".toList exampleClauses)).distanceScore =
      jsParseFloat "1.00".toList ∧
     (parseAnomalyReason (mkReason "high_energy_sad_fast".toList
        "1.00".toList exampleClauses)).deviations =
      (exampleClauses.filter (fun q => !q.unit.isEmpty)).map
        (fun q => ⟨q.dim, q.dir, q.mag ++ ' ' :: q.unit⟩)) :=
  ⟨⟨by decide, by decide, by decide, by decide⟩,
    parse_mkReason _ _ _ (by decide) (by decide) (by decide) (by decide)⟩

-- ---------------------------------------------------------------------------
-- C6 — exclusion accounting on the placeholder data
-- ---------------------------------------------------------------------------

/-- C6: every `PlaylistSummary` constructed in the repository — the two
embedded in `PLACEHOLDER_ANALYSIS` — satisfies
`num_tracks = num_eligible + num_excluded_missing_all + num_excluded_insufficient_audio_cluster`. -/
theorem placeholder_exclusion_accounting :
    PLACEHOLDER_ANALYSIS.playlists = [placeholderPlaylist1, placeholderPlaylist2] ∧
    exclusionAccounting placeholderPlaylist1.summary ∧
    exclusionAccounting placeholderPlaylist2.summary :=
  ⟨rfl, by show (701 : ℚ) = 658 + 43 + 0; norm_num,
    by show (255 : ℚ) = 238 + 17 + 0; norm_num⟩

-- ---------------------------------------------------------------------------
-- C8 — feature domain ranges and FeatureBar normalization
-- ---------------------------------------------------------------------------

/-- C8 counterexample: `AUDIO_FEATURE_META` has seven unit-interval
(percent) features, not six as the claim counts them. -/
theorem audio_feature_meta_seven_percent :
    (audioFeaturesOrder.filter (fun f => (AUDIO_FEATURE_META f).unit = "%")).length = 7 ∧
    ¬ (audioFeaturesOrder.filter
        (fun f => (AUDIO_FEATURE_META f).unit = "%")).length = 6 := by
  constructor <;> decide

/-- C8 (amended): the metadata records [0,1] for the seven unit-interval
features, [−20,0] dB for loudness and [60,200] BPM for tempo; the
`FeatureBar` normalization maps loudness −20 ↦ 0% and 0 ↦ 100%, tempo
60 ↦ 0% and 200 ↦ 100%; and the rendered width is clamped to [0,100] for
every unit and every input value. -/
theorem audio_feature_ranges_and_bar :
    (∀ f : AudioFeature, f ∈ audioFeaturesOrder) ∧
    (audioFeaturesOrder.filter (fun f => (AUDIO_FEATURE_META f).unit = "%")).length = 7 ∧
    (∀ f : AudioFeature, (AUDIO_FEATURE_META f).unit = "%" ∨
      (AUDIO_FEATURE_META f).unit = "dB" ∨ (AUDIO_FEATURE_META f).unit = "BPM") ∧
    (∀ f : AudioFeature,
      ((AUDIO_FEATURE_META f).unit = "%") = ((AUDIO_FEATURE_META f).min = 0 ∧
        (AUDIO_FEATURE_META f).max = 1)) ∧
    AUDIO_FEATURE_META .loudness =
      { label := "Loudness", color := "bg-red-400", unit := "dB", min := -20, max := 0 } ∧
    AUDIO_FEATURE_META .tempo =
      { label := "Tempo", color := "bg-brand-lavender", unit := "BPM", min := 60, max := 200 } ∧
    featureBarPct "dB" (-20) = 0 ∧ featureBarPct "dB" 0 = 100 ∧
    featureBarPct "BPM" 60 = 0 ∧ featureBarPct "BPM" 200 = 100 ∧
    (∀ (u : String) (v : ℚ),
      0 ≤ featureBarWidth u v ∧ featureBarWidth u v ≤ 100) := by
  refine ⟨?_, by decide, ?_, ?_, ?_, ?_,
    by simp only [featureBarPct, if_pos rfl]; norm_num,
    by simp only [featureBarPct, if_pos rfl]; norm_num,
    by simp only [featureBarPct]; rw [if_neg (by decide)]; norm_num,
    by simp only [featureBarPct]; rw [if_neg (by decide)]; norm_num,
    ?_⟩
  · intro f; cases f <;> decide
  · intro f; cases f <;> simp [AUDIO_FEATURE_META]
  · intro f; cases f <;> simp [AUDIO_FEATURE_META]
  · rfl
  · rfl
  · intro u v
    refine ⟨le_max_left _ _, ?_⟩
    exact max_le (by norm_num) (min_le_left _ _)

-- ---------------------------------------------------------------------------
-- C3 — avgAudio is the size-weighted mean
-- ---------------------------------------------------------------------------

/-- C3: when the cluster sizes of a playlist sum to a positive total,
`avgAudio` returns, for each audio dimension, the size-weighted average of
the cluster centroids: Σ (centroid·size) / Σ size. -/
theorem avgAudio_weighted_mean (p : AnalysisPlaylist) (f : AudioFeature)
    (h : 0 < clusterSizeTotal p) :
    avgAudio p f =
      some ((((clusterValues p).map
          (fun c => audioGet c.centroid_features.audio_means f * c.size)).sum) /
        (((clusterValues p).map (fun c => c.size)).sum)) := by
  have hne : clusterSizeTotal p ≠ 0 := ne_of_gt h
  unfold avgAudio jsDiv
  rw [if_neg hne]
  rw [show ((clusterValues p).foldl
      (fun s c => s + audioGet c.centroid_features.audio_means f * c.size) 0) =
      (((clusterValues p).map
        (fun c => audioGet c.centroid_features.audio_means f * c.size)).sum) by
    simpa using foldl_add_eq_sum
      (fun c => audioGet c.centroid_features.audio_means f * c.size)
      (clusterValues p) 0]
  rw [clusterSizeTotal_eq_sum]

/-- Witness for C3 at the first placeholder playlist and the energy
dimension. -/
theorem avgAudio_weighted_mean_witness :
    0 < clusterSizeTotal placeholderPlaylist1 ∧
    avgAudio placeholderPlaylist1 .energy =
      some ((((clusterValues placeholderPlaylist1).map
          (fun c => audioGet c.centroid_features.audio_means .energy * c.size)).sum) /
        (((clusterValues placeholderPlaylist1).map (fun c => c.size)).sum)) :=
  have hpos : 0 < clusterSizeTotal placeholderPlaylist1 := by
    norm_num [clusterSizeTotal, clusterValues, placeholderPlaylist1]
  ⟨hpos, avgAudio_weighted_mean placeholderPlaylist1 .energy hpos⟩

-- ---------------------------------------------------------------------------
-- C5 — degenerate comparison input produces NaN, not a neutral value
-- ---------------------------------------------------------------------------

/-- A syntactically valid degenerate playlist: zero clusters (the spec's
valid terminal state for a playlist with no eligible tracks). -/
def emptyClustersPlaylist : AnalysisPlaylist where
  playlist_id := "empty"
  playlist_name := "empty"
  summary :=
    { num_tracks := 0, num_eligible := 0, num_excluded_missing_all := 0,
      num_excluded_insufficient_audio_cluster := 0, num_clusters := 0,
      num_anomalies := 0, anomaly_score_cutoff := 0 }
  clusters := []
  anomalies := []

/-- C5 counterexample: on a playlist with no clusters, `avgAudio` divides
0 by 0 and yields `NaN` (modelled `none`) — there is no short-circuit to a
neutral finite value. -/
theorem avgAudio_empty_is_nan :
    avgAudio emptyClustersPlaylist .energy = none := by decide

/-- C5 (amended): `avgAudio` performs the division unconditionally — when
the cluster sizes sum to zero (in particular for empty clusters) every
dimension evaluates to `NaN`/`∞` (modelled `none`); a finite value is
produced exactly when the total is non-zero. -/
theorem avgAudio_zero_total_nan (p : AnalysisPlaylist) (f : AudioFeature) :
    (clusterSizeTotal p = 0 → avgAudio p f = none) ∧
    (clusterSizeTotal p ≠ 0 → ∃ q, avgAudio p f = some q) := by
  constructor
  · intro h0; unfold avgAudio jsDiv; rw [if_pos h0]
  · intro hne; unfold avgAudio jsDiv; rw [if_neg hne]; exact ⟨_, rfl⟩

/-- Witness for C5 at the degenerate playlist. -/
theorem avgAudio_zero_total_nan_witness :
    clusterSizeTotal emptyClustersPlaylist = 0 ∧
    avgAudio emptyClustersPlaylist .valence = none :=
  ⟨by decide, (avgAudio_zero_total_nan emptyClustersPlaylist .valence).1 (by decide)⟩

-- ---------------------------------------------------------------------------
-- C2 — shared/unique sets agree with the presence matrix
-- ---------------------------------------------------------------------------

/-- C2: with two or more compared playlists, a label in the
"Present in All Playlists" set is present (a cluster key) in every
playlist, and a label in the "Unique Clusters" set is present in exactly
one. -/
theorem shared_unique_presence (ps : List AnalysisPlaylist)
    (_h2 : 2 ≤ ps.length) (label : String) :
    (label ∈ sharedLabels ps → ps.all (fun p => hasLabel p label) = true) ∧
    (label ∈ uniqueLabels ps → ps.countP (fun p => hasLabel p label) = 1) := by
  constructor
  · intro hmem
    have hall := (List.mem_filter.mp hmem).2
    rw [List.all_eq_true]
    intro p hp
    have := (List.all_eq_true.mp hall) (hasLabel p label)
      (by exact List.mem_map.mpr ⟨p, hp, rfl⟩)
    simpa using this
  · intro hmem
    have hc : ((ps.map (fun p => hasLabel p label)).filter id).length = 1 := by
      simpa using (List.mem_filter.mp hmem).2
    rw [List.filter_map, List.length_map] at hc
    rw [List.countP_eq_length_filter]
    simpa [Function.comp] using hc

/-- Witness for C2 on the placeholder playlists: "high_energy_sad_fast"
is shared by both, "medium_energy_sad" is unique to the first. -/
theorem shared_unique_presence_witness :
    (2 ≤ PLACEHOLDER_ANALYSIS.playlists.length ∧
      "high_energy_sad_fast" ∈ sharedLabels PLACEHOLDER_ANALYSIS.playlists ∧
      PLACEHOLDER_ANALYSIS.playlists.all
        (fun p => hasLabel p "high_energy_sad_fast") = true) ∧
    ("medium_energy_sad" ∈ uniqueLabels PLACEHOLDER_ANALYSIS.playlists ∧
      PLACEHOLDER_ANALYSIS.playlists.countP
        (fun p => hasLabel p "medium_energy_sad") = 1) :=
  ⟨⟨by decide, by decide,
      (shared_unique_presence PLACEHOLDER_ANALYSIS.playlists (by decide)
        "high_energy_sad_fast").1 (by decide)⟩,
   ⟨by decide,
      (shared_unique_presence PLACEHOLDER_ANALYSIS.playlists (by decide)
        "medium_energy_sad").2 (by decide)⟩⟩

-- ---------------------------------------------------------------------------
-- C4 — presence matrix entries are key membership
-- ---------------------------------------------------------------------------

/-- C4: for a label occurring in any compared playlist, the presence
entry for playlist `i` is `true` exactly when the label is a key of that
playlist's clusters record — a playlist without the label reads `false`,
never "present with zero size". -/
theorem clusterPresence_entry_iff (ps : List AnalysisPlaylist) (label : String)
    (_hl : label ∈ allClusterLabels ps) (i : ℕ) (hi : i < ps.length) :
    ((clusterPresence ps label).get
        ⟨i, by simpa [clusterPresence] using hi⟩ = true) ↔
      label ∈ clusterKeys (ps.get ⟨i, hi⟩) := by
  simp [clusterPresence, hasLabel, List.get_eq_getElem]

/-- Witness for C4 on the placeholder playlists: "medium_energy_sad" is a
key of playlist 0 and not of playlist 1. -/
theorem clusterPresence_entry_iff_witness :
    ("medium_energy_sad" ∈ allClusterLabels PLACEHOLDER_ANALYSIS.playlists ∧
      1 < PLACEHOLDER_ANALYSIS.playlists.length) ∧
    (((clusterPresence PLACEHOLDER_ANALYSIS.playlists "medium_energy_sad").get
        ⟨1, by decide⟩ = true) ↔
      "medium_energy_sad" ∈
        clusterKeys (PLACEHOLDER_ANALYSIS.playlists.get ⟨1, by decide⟩)) :=
  ⟨⟨by decide, by decide⟩,
    clusterPresence_entry_iff PLACEHOLDER_ANALYSIS.playlists "medium_energy_sad"
      (by decide) 1 (by decide)⟩

-- ---------------------------------------------------------------------------
-- C7 — determinism up to the wall clock
-- ---------------------------------------------------------------------------

/-- A small concrete raw backend response. -/
def rawExample : RawAnalysisResponse where
  num_playlists := 1
  playlists :=
    [{ playlist_id := "id1"
       playlist_name := "p1"
       clusters :=
         [{ cluster_id := 0, label := "chill", size := 2,
            audio_means :=
              { acousticness := some 0.5, danceability := some 0.4,
                energy := some 0.3, instrumentalness := none,
                liveness := some 0.1, loudness := some (-7.5),
                speechiness := some 0.05, tempo := none, valence := some 0.6 },
            top_tags := ["chill"], tag_weights_top := [("chill", 0.5)],
            member_track_ids := ["t1", "t2"],
            tracks :=
              [{ spotify_id := "t1", title := "A", cluster_id := some 0,
                 anomaly_score := 0.2, is_anomaly := false, reason := "" },
               { spotify_id := "t2", title := "B", cluster_id := none,
                 anomaly_score := 0.9, is_anomaly := true,
                 reason := "Anomalous vs dominant mood 'chill'. distance_score=0.90. higher energy by 0.30" }] }]
       summary :=
         { num_tracks := 2, num_eligible := 2, num_excluded_missing_all := 0,
           num_excluded_insufficient_audio_cluster := 0, num_clusters := 1,
           num_anomalies := 1, anomaly_score_cutoff := 0.85 } }]

/-- C7 counterexample: two runs of `transformAnalysisResponse` on the same
raw response at different clock instants produce different
`AnalysisResult` values — `generated_at` is the wall clock, not a function
of the input. -/
theorem transform_two_runs_differ :
    transformAnalysisResponse "2026-02-22T09:00:00.000Z" rawExample ≠
      transformAnalysisResponse "2026-02-22T09:00:01.000Z" rawExample := by
  decide

/-- C7 (amended): `transformAnalysisResponse` is deterministic in every
field except `generated_at` — two runs differ at most in `generated_at`,
which equals the clock reading of the run. -/
theorem transform_deterministic_up_to_clock (t1 t2 : String)
    (raw : RawAnalysisResponse) :
    transformAnalysisResponse t1 raw =
      { transformAnalysisResponse t2 raw with generated_at := t1 } ∧
    (transformAnalysisResponse t1 raw).generated_at = t1 :=
  ⟨rfl, rfl⟩

-- ---------------------------------------------------------------------------
-- C9 — anomaly extraction: exactly the flagged tracks, sorted by score
-- ---------------------------------------------------------------------------

/-- C9: the per-playlist anomalies array of `transformAnalysisResponse` is
a permutation of the flagged tracks collected from the clusters (one entry
per flagged track, carrying its score and reason), its entries are exactly
those tracks, and it is sorted in non-increasing `anomaly_score` order. -/
theorem transform_anomalies_exact_sorted (p : RawAnalysisPlaylist) :
    (∀ (now : String) (raw : RawAnalysisResponse),
      (transformAnalysisResponse now raw).playlists =
        raw.playlists.map transformAnalysisPlaylist) ∧
    List.Perm (transformAnalysisPlaylist p).anomalies
      (collectAnomalies p.clusters) ∧
    ((transformAnalysisPlaylist p).anomalies.Pairwise
      (fun x y => y.anomaly_score ≤ x.anomaly_score)) ∧
    (∀ a : Anomaly, a ∈ (transformAnalysisPlaylist p).anomalies ↔
      ∃ c ∈ p.clusters, ∃ t ∈ c.tracks, t.is_anomaly = true ∧
        a = { spotify_id := t.spotify_id, title := t.title,
              cluster_id := t.cluster_id.getD c.cluster_id,
              anomaly_score := t.anomaly_score, reason := t.reason }) := by
  refine ⟨fun _ _ => rfl, sortByScoreDesc_perm _, sortByScoreDesc_pairwise _, ?_⟩
  intro a
  rw [show (transformAnalysisPlaylist p).anomalies =
      sortByScoreDesc (collectAnomalies p.clusters) from rfl]
  rw [(sortByScoreDesc_perm _).mem_iff]
  simp only [collectAnomalies, List.mem_flatMap, List.mem_map, List.mem_filter]
  constructor
  · rintro ⟨c, hc, t, ⟨ht, hflag⟩, rfl⟩
    exact ⟨c, hc, t, ht, hflag, rfl⟩
  · rintro ⟨c, hc, t, ht, hflag, rfl⟩
    exact ⟨c, hc, t, ⟨ht, hflag⟩, rfl⟩

-- ---------------------------------------------------------------------------
-- C10 — null centroid means become 0
-- ---------------------------------------------------------------------------

/-- C10: `transformAnalysisResponse` replaces every `null` centroid
`audio_means` value with the number 0, dimension by dimension — a missing
dimension reaches the UI as 0, not as a midpoint or an absent field. -/
theorem transform_null_means_to_zero :
    (∀ (m : RawAudioMeans) (f : AudioFeature),
      audioGet (transformAudioMeans m) f = (rawAudioGet m f).getD 0) ∧
    (∀ c : RawCluster,
      (transformCluster c).centroid_features.audio_means =
        transformAudioMeans c.audio_means) := by
  refine ⟨?_, fun c => rfl⟩
  intro m f
  cases f <;> rfl

end OffBeat

